import Mathlib

/-!
Verification of the Agent Firewall runtime policy decision service.

This file embeds, as executable Lean definitions, the parts of the
repository relevant to the claims under examination:

* the deterministic policy evaluator `evaluateToolCall` of the hardened
  edge function (`src/unnamed/part_002`, lines 376-660), together with
  its helper functions `evaluateGuard` and `getJsonPathValue`;
* the legacy evaluator of `src/supabase/functions/runtime-check/index.ts`
  (`evaluateToolCallRC`), which is textually identical to the hardened
  one except that it has no counter-ceiling check (check 13);
* the frontend simulator `simulateToolCall`
  (`src/unnamed/part_003`, lines 76-427);
* the redactor `redactSensitiveFields` (`src/unnamed/part_002`,
  lines 228-269);
* the two policy-hash serializations: the recursive key sorting of
  `src/src/lib/policy-engine/hash.ts` and the replacer-array
  serialization of `computePolicyHash` in `src/unnamed/part_002`;
* the request-handler steps of the hardened edge function that the
  claims touch: the published-policy fetch and evaluation call site,
  the unconditional session-state update, and the rate-limit step.

Modelling conventions: JSON values are the inductive `J`; JavaScript
objects are association lists in insertion order (updates keep the
position of an existing key, new keys are appended, mirroring JS
semantics); `Record<string, number>` is `List (String × Int)`;
`undefined` is `Option.none`; JavaScript regular-expression testing for
policy-supplied patterns is an oracle parameter
`rt : String → String → Option Bool` (`none` models a pattern on which
the `RegExp` constructor throws, which the source catches and skips).
SHA-256 itself is never modelled: every hash statement is reduced to a
statement about the serialized strings that are hashed, which is exact
up to hash collisions.
-/

/-- JSON values (the payloads and policy documents the service handles). -/
inductive J where
  | null
  | bool (b : Bool)
  | num (n : Int)
  | str (s : String)
  | arr (elems : List J)
  | obj (fields : List (String × J))
deriving Repr

mutual

def jDecEq : (a b : J) → Decidable (a = b)
  | J.null, J.null => isTrue rfl
  | J.bool a, J.bool b =>
    match decEq a b with
    | isTrue h => isTrue (by rw [h])
    | isFalse h => isFalse (by intro hh; cases hh; exact h rfl)
  | J.num a, J.num b =>
    match decEq a b with
    | isTrue h => isTrue (by rw [h])
    | isFalse h => isFalse (by intro hh; cases hh; exact h rfl)
  | J.str a, J.str b =>
    match decEq a b with
    | isTrue h => isTrue (by rw [h])
    | isFalse h => isFalse (by intro hh; cases hh; exact h rfl)
  | J.arr a, J.arr b =>
    match jDecEqL a b with
    | isTrue h => isTrue (by rw [h])
    | isFalse h => isFalse (by intro hh; cases hh; exact h rfl)
  | J.obj a, J.obj b =>
    match jDecEqF a b with
    | isTrue h => isTrue (by rw [h])
    | isFalse h => isFalse (by intro hh; cases hh; exact h rfl)
  | J.null, J.bool _ => isFalse (by intro h; cases h)
  | J.null, J.num _ => isFalse (by intro h; cases h)
  | J.null, J.str _ => isFalse (by intro h; cases h)
  | J.null, J.arr _ => isFalse (by intro h; cases h)
  | J.null, J.obj _ => isFalse (by intro h; cases h)
  | J.bool _, J.null => isFalse (by intro h; cases h)
  | J.bool _, J.num _ => isFalse (by intro h; cases h)
  | J.bool _, J.str _ => isFalse (by intro h; cases h)
  | J.bool _, J.arr _ => isFalse (by intro h; cases h)
  | J.bool _, J.obj _ => isFalse (by intro h; cases h)
  | J.num _, J.null => isFalse (by intro h; cases h)
  | J.num _, J.bool _ => isFalse (by intro h; cases h)
  | J.num _, J.str _ => isFalse (by intro h; cases h)
  | J.num _, J.arr _ => isFalse (by intro h; cases h)
  | J.num _, J.obj _ => isFalse (by intro h; cases h)
  | J.str _, J.null => isFalse (by intro h; cases h)
  | J.str _, J.bool _ => isFalse (by intro h; cases h)
  | J.str _, J.num _ => isFalse (by intro h; cases h)
  | J.str _, J.arr _ => isFalse (by intro h; cases h)
  | J.str _, J.obj _ => isFalse (by intro h; cases h)
  | J.arr _, J.null => isFalse (by intro h; cases h)
  | J.arr _, J.bool _ => isFalse (by intro h; cases h)
  | J.arr _, J.num _ => isFalse (by intro h; cases h)
  | J.arr _, J.str _ => isFalse (by intro h; cases h)
  | J.arr _, J.obj _ => isFalse (by intro h; cases h)
  | J.obj _, J.null => isFalse (by intro h; cases h)
  | J.obj _, J.bool _ => isFalse (by intro h; cases h)
  | J.obj _, J.num _ => isFalse (by intro h; cases h)
  | J.obj _, J.str _ => isFalse (by intro h; cases h)
  | J.obj _, J.arr _ => isFalse (by intro h; cases h)

def jDecEqL : (a b : List J) → Decidable (a = b)
  | [], [] => isTrue rfl
  | [], _ :: _ => isFalse (by intro h; cases h)
  | _ :: _, [] => isFalse (by intro h; cases h)
  | x :: xs, y :: ys =>
    match jDecEq x y, jDecEqL xs ys with
    | isTrue h1, isTrue h2 => isTrue (by rw [h1, h2])
    | isFalse h1, _ => isFalse (by intro hh; cases hh; exact h1 rfl)
    | _, isFalse h2 => isFalse (by intro hh; cases hh; exact h2 rfl)

def jDecEqF : (a b : List (String × J)) → Decidable (a = b)
  | [], [] => isTrue rfl
  | [], _ :: _ => isFalse (by intro h; cases h)
  | _ :: _, [] => isFalse (by intro h; cases h)
  | (k1, v1) :: xs, (k2, v2) :: ys =>
    match decEq k1 k2, jDecEq v1 v2, jDecEqF xs ys with
    | isTrue h1, isTrue h2, isTrue h3 => isTrue (by rw [h1, h2, h3])
    | isFalse h1, _, _ => isFalse (by intro hh; cases hh; exact h1 rfl)
    | _, isFalse h2, _ => isFalse (by intro hh; cases hh; exact h2 rfl)
    | _, _, isFalse h3 => isFalse (by intro hh; cases hh; exact h3 rfl)

end

instance : DecidableEq J := jDecEq

/-- Property read on a JavaScript object: first binding of the key. -/
def jsLookup (fields : List (String × J)) (k : String) : Option J :=
  (fields.find? (fun p => p.1 == k)).map (fun p => p.2)

/-- Read of a `Record<string, α>` field. -/
def recGet {α : Type} (m : List (String × α)) (k : String) : Option α :=
  (m.find? (fun p => p.1 == k)).map (fun p => p.2)

/-- Read with default (the `?? d` pattern of the source). -/
def recGetD {α : Type} (m : List (String × α)) (k : String) (d : α) : α :=
  (recGet m k).getD d

/-- The JavaScript `in` operator on a record. -/
def recHas {α : Type} (m : List (String × α)) (k : String) : Bool :=
  (recGet m k).isSome

/-- JavaScript property write `m[k] = v`: an existing key keeps its
position and gets the new value, a new key is appended. -/
def recSet {α : Type} (m : List (String × α)) (k : String) (v : α) :
    List (String × α) :=
  if recHas m k then m.map (fun p => if p.1 == k then (p.1, v) else p)
  else m ++ [(k, v)]

/-- JavaScript truthiness of an optional string (`undefined` and `""`
are falsy). -/
def strTruthy (o : Option String) : Bool :=
  match o with
  | some s => s != ""
  | none => false

/-- The JavaScript `a || b` on optional strings (used for
`actionType || rule.actionType`). -/
def jsOrStr (a b : Option String) : Option String :=
  match a with
  | some s => if s == "" then b else some s
  | none => b

/-- JavaScript `\s` on the ASCII range (space, tab, newline, carriage
return, vertical tab, form feed).  The Unicode space characters that
`\s` also matches play no role in any claim. -/
def isSpaceJS (c : Char) : Bool :=
  c == ' ' || c == '\t' || c == '\n' || c == '\r' || c == '\x0b' || c == '\x0c'

/-- JavaScript `\w`, that is `[A-Za-z0-9_]`. -/
def isWordCharJS (c : Char) : Bool :=
  ('a' ≤ c && c ≤ 'z') || ('A' ≤ c && c ≤ 'Z') || ('0' ≤ c && c ≤ '9') || c == '_'

/-- ASCII decimal digit (`\d`). -/
def isDigitChar (c : Char) : Bool :=
  '0' ≤ c && c ≤ '9'

/-- `String.prototype.trim`: strip leading and trailing whitespace. -/
def trimJS (cs : List Char) : List Char :=
  ((cs.dropWhile isSpaceJS).reverse.dropWhile isSpaceJS).reverse

/-- The six comparison operators of the guard grammar. -/
inductive GuardOp where
  | le
  | lt
  | ge
  | gt
  | eqOp
  | neOp
deriving DecidableEq, Repr

/-- The alternation `(<=|<|>=|>|==|!=)` of the guard regex; the regex
engine tries the alternatives in this order. -/
def parseOp : List Char → Option (GuardOp × List Char)
  | '<' :: '=' :: rest => some (GuardOp.le, rest)
  | '<' :: rest => some (GuardOp.lt, rest)
  | '>' :: '=' :: rest => some (GuardOp.ge, rest)
  | '>' :: rest => some (GuardOp.gt, rest)
  | '=' :: '=' :: rest => some (GuardOp.eqOp, rest)
  | '!' :: '=' :: rest => some (GuardOp.neOp, rest)
  | _ => none

/-- Decimal value of a digit string (the `parseInt(match[3], 10)` of the
source, on input that is all digits). -/
def digitsToNat (ds : List Char) : Nat :=
  ds.foldl (fun n c => n * 10 + (c.toNat - '0'.toNat)) 0

/-- The match of `/^(\w+)\s*(<=|<|>=|>|==|!=)\s*(\d+)$/` against a
character list, returning captured name, operator and literal.  The
token classes `\w`, `\s` and `\d` are pairwise disjoint and disjoint
from the operator characters, so the greedy backtracking-free parse
below computes exactly the regex match. -/
def guardMatch (cs : List Char) : Option (String × GuardOp × Nat) :=
  let p1 := cs.span isWordCharJS
  if p1.1.isEmpty then none
  else
    match parseOp (p1.2.dropWhile isSpaceJS) with
    | none => none
    | some (op, r3) =>
      let p2 := (r3.dropWhile isSpaceJS).span isDigitChar
      if p2.1.isEmpty then none
      else if p2.2.isEmpty then some (String.mk p1.1, op, digitsToNat p2.1)
      else none

/-- The comparison dispatch of `evaluateGuard`'s `switch`. -/
def evalCmpInt (x : Int) (op : GuardOp) (y : Int) : Bool :=
  match op with
  | GuardOp.le => decide (x ≤ y)
  | GuardOp.lt => decide (x < y)
  | GuardOp.ge => decide (y ≤ x)
  | GuardOp.gt => decide (y < x)
  | GuardOp.eqOp => x == y
  | GuardOp.neOp => x != y

/-- `evaluateGuard` of `src/unnamed/part_002` lines 291-311 (identical
in `runtime-check/index.ts` lines 171-191 and `part_003` lines 48-70):
trim, match the regex `/^(\w+)\s*(<=|<|>=|>|==|!=)\s*(\d+)$/`, and on a
match compare the counter value (missing counter defaults to 0) with
the literal; any non-match evaluates to `false`. -/
def evaluateGuard (guard : String) (counters : List (String × Int)) : Bool :=
  match guardMatch (trimJS guard.data) with
  | none => false
  | some (n, op, v) => evalCmpInt (recGetD counters n 0) op (Int.ofNat v)

/-- First character class `[A-Za-z_]` of the guard grammar stated in the
specification. -/
def isAlphaUnderscore (c : Char) : Bool :=
  ('a' ≤ c && c ≤ 'z') || ('A' ≤ c && c ≤ 'Z') || c == '_'

/-- Modelled from the spec: the guard grammar of §4.2,
`^\s*([A-Za-z_][A-Za-z0-9_]*)\s*(<=|<|>=|>|==|!=)\s*(-?\d+)\s*$`.
This is the claim-side reference the code's `evaluateGuard` is compared
against; it differs from the code in accepting a leading `-` on the
literal and in requiring the counter name to start with a letter or
underscore. -/
def specGuardParse (cs : List Char) : Option (String × GuardOp × Int) :=
  let r0 := cs.dropWhile isSpaceJS
  match r0.head? with
  | none => none
  | some c0 =>
    if isAlphaUnderscore c0 then
      let p1 := r0.span isWordCharJS
      match parseOp (p1.2.dropWhile isSpaceJS) with
      | none => none
      | some (op, r3) =>
        let r4 := r3.dropWhile isSpaceJS
        let sgn : Bool × List Char :=
          match r4 with
          | '-' :: r5 => (true, r5)
          | _ => (false, r4)
        let p2 := sgn.2.span isDigitChar
        if p2.1.isEmpty then none
        else if (p2.2.dropWhile isSpaceJS).isEmpty then
          some (String.mk p1.1, op,
            if sgn.1 then -(Int.ofNat (digitsToNat p2.1)) else Int.ofNat (digitsToNat p2.1))
        else none
    else none

/-- Modelled from the spec: guard semantics under the spec's grammar —
missing counter defaults to 0, any syntactic failure yields `false`. -/
def specGuardEval (g : String) (counters : List (String × Int)) : Bool :=
  match specGuardParse g.data with
  | none => false
  | some (n, op, v) => evalCmpInt (recGetD counters n 0) op v

/-- Splitting a path on `'.'` (JavaScript `path.split('.')`). -/
def splitOnDotAux : List Char → List Char → List (List Char)
  | [], acc => [acc.reverse]
  | '.' :: rest, acc => acc.reverse :: splitOnDotAux rest []
  | c :: rest, acc => splitOnDotAux rest (c :: acc)

def splitOnDot (cs : List Char) : List (List Char) :=
  splitOnDotAux cs []

/-- JavaScript property read on an array value.  Array elements are
reachable by canonical decimal index strings and `length` yields the
element count; other exotic array properties are not modelled (no claim
touches them). -/
def arrIndexJS (xs : List J) (key : List Char) : Option J :=
  if key == "length".data then some (J.num (Int.ofNat xs.length))
  else if !key.isEmpty && key.all isDigitChar &&
      (key == ['0'] || key.head? != some '0') then
    xs.get? (digitsToNat key)
  else none

/-- One iteration of the `getJsonPathValue` loop: return `undefined` on
`null` / `undefined` / non-object, otherwise read the property. -/
def jsPropStep : Option J → List Char → Option J
  | none, _ => none
  | some J.null, _ => none
  | some (J.bool _), _ => none
  | some (J.num _), _ => none
  | some (J.str _), _ => none
  | some (J.arr xs), k => arrIndexJS xs k
  | some (J.obj fs), k => jsLookup fs (String.mk k)

/-- `getJsonPathValue` of `src/unnamed/part_002` lines 274-285
(identical in the other two evaluator files): dot-separated traversal
that yields `undefined` on `null`, non-objects, and absent keys. -/
def getJsonPathValue (payload : List (String × J)) (path : String) : Option J :=
  (splitOnDot path.data).foldl jsPropStep (some (J.obj payload))

/-- `ToolRule` of the source (`effect` is a string at runtime; the
TypeScript annotation `'allow' | 'deny'` is not enforced at runtime,
which matters for the side-effect-gate claim). -/
structure RegexConstraint where
  jsonPath : String
  pattern : String
deriving DecidableEq, Repr

structure ToolRule where
  toolName : String
  effect : String
  actionType : Option String := none
  maxCallsPerSession : Option Int := none
  cooldownMs : Option Int := none
  requireState : Option String := none
  requirePreviousToolCalls : Option (List String) := none
  requireFields : Option (List String) := none
  denyIfFieldsPresent : Option (List String) := none
  denyIfRegexMatch : Option (List RegexConstraint) := none
  allowOnlyIfRegexMatch : Option (List RegexConstraint) := none
deriving DecidableEq, Repr

structure StateTransition where
  fromState : String
  toState : String
  triggeredByTool : String
  requiresToolsCalledBefore : Option (List String) := none
  setsCounters : Option (List (String × Int)) := none
  guard : Option String := none
deriving DecidableEq, Repr

structure StateMachine where
  states : List String
  initialState : String
  transitions : List StateTransition
deriving DecidableEq, Repr

structure CounterDef where
  name : String
  scope : String
  initialValue : Int
  maxValue : Option Int := none
deriving DecidableEq, Repr

structure PolicySpec where
  version : String
  defaultDecision : String
  toolRules : List ToolRule
  stateMachine : Option StateMachine := none
  counters : Option (List CounterDef) := none
deriving DecidableEq, Repr

structure DecisionReason where
  code : String
  message : String
  ruleRef : Option String := none
deriving DecidableEq, Repr

/-- The mutable evaluation state of `evaluateToolCall`:
`allowed`, `errorCode`, `reasons`, `newState`, `newCounters`,
`newToolCallCounts`; this is also the shape of the returned record. -/
structure EvalSt where
  allowed : Bool
  errorCode : Option String
  reasons : List DecisionReason
  newState : String
  newCounters : List (String × Int)
  newToolCallCounts : List (String × Int)
deriving DecidableEq, Repr

/-- `if (!errorCode) errorCode = c` of the source (error-code strings
are never empty, so JS falsiness is `Option.none`). -/
def setCode (e : Option String) (c : String) : Option String :=
  match e with
  | none => some c
  | some c0 => some c0

/-- A denial by one of the terminal checks 1-4, which assign
`errorCode` unconditionally (it is provably unset at those points). -/
def pushDeny (s : EvalSt) (r : DecisionReason) : EvalSt :=
  { s with allowed := false, errorCode := some r.code, reasons := s.reasons ++ [r] }

/-- A denial by one of the non-terminal checks 5-13:
`allowed = false; if (!errorCode) errorCode = r.code; reasons.push(r)`. -/
def pushFail (s : EvalSt) (r : DecisionReason) : EvalSt :=
  { s with allowed := false, errorCode := setCode s.errorCode r.code,
           reasons := s.reasons ++ [r] }

/-- A `for`-loop that pushes a failure for the items on which `mk`
produces one (the shape of every loop inside the evaluator). -/
def forFailOpt {α : Type} (mk : α → Option DecisionReason) (l : List α)
    (s : EvalSt) : EvalSt :=
  l.foldl (fun s x =>
    match mk x with
    | some r => pushFail s r
    | none => s) s

/-- Counter initialization at the top of the evaluator: each policy
counter absent from the session's counters is set to its
`initialValue`. -/
def initCounters (counters : List (String × Int)) (policy : PolicySpec) :
    List (String × Int) :=
  (policy.counters.getD []).foldl
    (fun m d => if recHas m d.name then m else recSet m d.name d.initialValue)
    counters

/-- Check 4 (required state).  The source guards with JS truthiness
(`rule.requireState && rule.requireState !== currentState`) and assigns
`errorCode` unconditionally. -/
def checkRequiredState (rule : ToolRule) (toolName currentState : String)
    (s : EvalSt) : EvalSt :=
  if strTruthy rule.requireState && rule.requireState != some currentState then
    pushDeny s
      ⟨"REQUIRED_STATE_NOT_MET",
       "Tool \"" ++ toolName ++ "\" requires state \"" ++ rule.requireState.getD "" ++
         "\" but current state is \"" ++ currentState ++ "\"",
       some ("toolRules." ++ toolName ++ ".requireState")⟩
  else s

/-- Check 5 (required previous tools). -/
def checkPrevTools (rule : ToolRule) (toolName : String)
    (previousToolsCalled : List String) (s : EvalSt) : EvalSt :=
  forFailOpt (fun req =>
      if previousToolsCalled.contains req then none
      else some
        ⟨"REQUIRED_TOOLS_NOT_CALLED",
         "Tool \"" ++ toolName ++ "\" requires \"" ++ req ++ "\" to be called first",
         some ("toolRules." ++ toolName ++ ".requirePreviousToolCalls")⟩)
    (rule.requirePreviousToolCalls.getD []) s

/-- Check 6 (max calls per session). -/
def checkMaxCalls (rule : ToolRule) (toolName : String)
    (toolCallCounts : List (String × Int)) (s : EvalSt) : EvalSt :=
  match rule.maxCallsPerSession with
  | none => s
  | some maxCalls =>
    if recGetD toolCallCounts toolName 0 ≥ maxCalls then
      pushFail s
        ⟨"MAX_CALLS_EXCEEDED",
         "Tool \"" ++ toolName ++ "\" has reached maximum calls (" ++
           toString maxCalls ++ ") for this session",
         some ("toolRules." ++ toolName ++ ".maxCallsPerSession")⟩
    else s

/-- Check 7 (cooldown). -/
def checkCooldown (rule : ToolRule) (toolName : String)
    (lastToolCallTimes : List (String × Int)) (timestamp : Int)
    (s : EvalSt) : EvalSt :=
  match rule.cooldownMs with
  | none => s
  | some cooldown =>
    match recGet lastToolCallTimes toolName with
    | none => s
    | some lastTime =>
      if timestamp - lastTime < cooldown then
        pushFail s
          ⟨"COOLDOWN_ACTIVE",
           "Tool \"" ++ toolName ++ "\" is in cooldown. " ++
             toString (cooldown - (timestamp - lastTime)) ++ "ms remaining",
           some ("toolRules." ++ toolName ++ ".cooldownMs")⟩
      else s

/-- Check 8 (required fields). -/
def checkRequiredFields (rule : ToolRule) (toolName : String)
    (payload : List (String × J)) (s : EvalSt) : EvalSt :=
  forFailOpt (fun field =>
      if (getJsonPathValue payload field).isNone then
        some
          ⟨"REQUIRED_FIELD_MISSING",
           "Required field \"" ++ field ++ "\" is missing from payload",
           some ("toolRules." ++ toolName ++ ".requireFields")⟩
      else none)
    (rule.requireFields.getD []) s

/-- Check 9 (forbidden fields). -/
def checkForbiddenFields (rule : ToolRule) (toolName : String)
    (payload : List (String × J)) (s : EvalSt) : EvalSt :=
  forFailOpt (fun field =>
      if (getJsonPathValue payload field).isSome then
        some
          ⟨"FORBIDDEN_FIELD_PRESENT",
           "Field \"" ++ field ++ "\" is forbidden in payload",
           some ("toolRules." ++ toolName ++ ".denyIfFieldsPresent")⟩
      else none)
    (rule.denyIfFieldsPresent.getD []) s

/-- Check 10 (deny-if-regex): fires for a defined string value whose
pattern compiles and matches; a throwing pattern is skipped. -/
def checkDenyRegex (rt : String → String → Option Bool) (rule : ToolRule)
    (toolName : String) (payload : List (String × J)) (s : EvalSt) : EvalSt :=
  forFailOpt (fun (c : RegexConstraint) =>
      match getJsonPathValue payload c.jsonPath with
      | some (J.str v) =>
        match rt c.pattern v with
        | some true =>
          some
            ⟨"REGEX_MATCH_DENIED",
             "Field \"" ++ c.jsonPath ++ "\" matches forbidden pattern",
             some ("toolRules." ++ toolName ++ ".denyIfRegexMatch")⟩
        | _ => none
      | _ => none)
    (rule.denyIfRegexMatch.getD []) s

/-- Check 11 (allow-only-if-regex): a missing or non-string value fails,
a compiling non-matching pattern fails, a throwing pattern is skipped. -/
def checkAllowRegex (rt : String → String → Option Bool) (rule : ToolRule)
    (toolName : String) (payload : List (String × J)) (s : EvalSt) : EvalSt :=
  forFailOpt (fun (c : RegexConstraint) =>
      match getJsonPathValue payload c.jsonPath with
      | some (J.str v) =>
        match rt c.pattern v with
        | some false =>
          some
            ⟨"REGEX_MATCH_REQUIRED",
             "Field \"" ++ c.jsonPath ++ "\" does not match required pattern",
             some ("toolRules." ++ toolName ++ ".allowOnlyIfRegexMatch")⟩
        | _ => none
      | _ =>
        some
          ⟨"REGEX_MATCH_REQUIRED",
           "Field \"" ++ c.jsonPath ++ "\" must exist and match pattern",
           some ("toolRules." ++ toolName ++ ".allowOnlyIfRegexMatch")⟩)
    (rule.allowOnlyIfRegexMatch.getD []) s

/-- `setsCounters` application: additive deltas on the working
counters. -/
def applySetsCounters (m : List (String × Int)) (sets : List (String × Int)) :
    List (String × Int) :=
  sets.foldl (fun m p => recSet m p.1 (recGetD m p.1 0 + p.2)) m

/-- Check 12 (state-machine transition) of the hardened evaluator and of
`runtime-check/index.ts` (textually identical there). -/
def checkStateMachine (policy : PolicySpec) (toolName currentState : String)
    (previousToolsCalled : List String) (s : EvalSt) : EvalSt :=
  if s.allowed then
    match policy.stateMachine with
    | none => s
    | some sm =>
      match sm.transitions.find? (fun t =>
          t.triggeredByTool == toolName && t.fromState == currentState) with
      | none => s
      | some tr =>
        let s1 := forFailOpt (fun req =>
            if previousToolsCalled.contains req then none
            else some
              ⟨"REQUIRED_TOOLS_NOT_CALLED",
               "State transition requires \"" ++ req ++ "\" to be called first",
               some "stateMachine.transitions"⟩)
          (tr.requiresToolsCalledBefore.getD []) s
        let s2 :=
          if strTruthy tr.guard && s1.allowed then
            if evaluateGuard (tr.guard.getD "") s1.newCounters then s1
            else pushFail s1
              ⟨"GUARD_CONDITION_FAILED",
               "Guard condition \"" ++ tr.guard.getD "" ++ "\" not satisfied",
               some "stateMachine.transitions"⟩
          else s1
        if s2.allowed then
          { s2 with
            newState := tr.toState,
            reasons := s2.reasons ++
              [⟨"STATE_TRANSITION",
                "State transition: " ++ currentState ++ " -> " ++ tr.toState,
                none⟩],
            newCounters := applySetsCounters s2.newCounters (tr.setsCounters.getD []) }
        else s2
  else s

/-- Check 13 (counter ceilings), present only in the hardened
evaluator.  A counter absent from the working map compares as
`undefined > maxValue`, which is false in JS. -/
def checkCounterLimits (policy : PolicySpec) (s : EvalSt) : EvalSt :=
  forFailOpt (fun (d : CounterDef) =>
      match d.maxValue with
      | none => none
      | some mv =>
        match recGet s.newCounters d.name with
        | some v =>
          if v > mv then
            some
              ⟨"COUNTER_LIMIT_EXCEEDED",
               "Counter \"" ++ d.name ++ "\" would exceed maximum value (" ++
                 toString mv ++ ")",
               some ("counters." ++ d.name ++ ".maxValue")⟩
          else none
        | none => none)
    (policy.counters.getD []) s

/-- Finalization: an allowed call increments its tool-call count and, if
no reason was recorded, gets the informational `ALLOWED` reason. -/
def finalizeEval (toolName : String) (s : EvalSt) : EvalSt :=
  if s.allowed then
    let bumped := recSet s.newToolCallCounts toolName
      (recGetD s.newToolCallCounts toolName 0 + 1)
    let s1 := { s with newToolCallCounts := bumped }
    if s1.reasons.isEmpty then
      { s1 with reasons := [⟨"ALLOWED", "All policy conditions satisfied", none⟩] }
    else s1
  else s

/-- The non-terminal check chain 4-12 shared verbatim by the hardened
evaluator and `runtime-check/index.ts`. -/
def coreChecks (rt : String → String → Option Bool) (policy : PolicySpec)
    (rule : ToolRule) (toolName : String) (payload : List (String × J))
    (currentState : String) (previousToolsCalled : List String)
    (toolCallCounts lastToolCallTimes : List (String × Int)) (timestamp : Int)
    (s : EvalSt) : EvalSt :=
  checkStateMachine policy toolName currentState previousToolsCalled
    (checkAllowRegex rt rule toolName payload
      (checkDenyRegex rt rule toolName payload
        (checkForbiddenFields rule toolName payload
          (checkRequiredFields rule toolName payload
            (checkCooldown rule toolName lastToolCallTimes timestamp
              (checkMaxCalls rule toolName toolCallCounts
                (checkPrevTools rule toolName previousToolsCalled
                  (checkRequiredState rule toolName currentState s))))))))

/-- The terminal checks 1-3 and initialization shared by both edge
evaluators; `rest` is the continuation run when a matching allow rule
passes the side-effect gate. -/
def evalCommonHead (policy : PolicySpec) (toolName : String)
    (actionType : Option String) (currentState : String)
    (counters toolCallCounts : List (String × Int))
    (rest : ToolRule → EvalSt → EvalSt) : EvalSt :=
  let s0 : EvalSt :=
    { allowed := true, errorCode := none, reasons := [],
      newState := currentState,
      newCounters := initCounters counters policy,
      newToolCallCounts := toolCallCounts }
  match policy.toolRules.find? (fun r => r.toolName == toolName) with
  | none =>
    if policy.defaultDecision == "deny" then
      pushDeny s0
        ⟨"UNKNOWN_TOOL_DENIED",
         "Tool \"" ++ toolName ++
           "\" is not defined in policy and defaultDecision is \"deny\"",
         some "defaultDecision"⟩
    else s0
  | some rule =>
    if rule.effect == "deny" then
      pushDeny s0
        ⟨"TOOL_EXPLICITLY_DENIED",
         "Tool \"" ++ toolName ++ "\" is explicitly denied by policy",
         some ("toolRules." ++ toolName ++ ".effect")⟩
    else
      let effectiveActionType := jsOrStr actionType rule.actionType
      if (effectiveActionType == some "side_effect" ||
          effectiveActionType == some "write") && rule.effect != "allow" then
        pushDeny s0
          ⟨"SIDE_EFFECT_NOT_ALLOWED",
           "Tool \"" ++ toolName ++ "\" is a " ++ effectiveActionType.getD "" ++
             " operation and must be explicitly allowed",
           some ("toolRules." ++ toolName ++ ".actionType")⟩
      else rest rule s0

/-- `evaluateToolCall` of the hardened edge function
(`src/unnamed/part_002`, lines 376-660): checks 1-13 in order, then
finalization. -/
def evaluateToolCall (rt : String → String → Option Bool) (policy : PolicySpec)
    (toolName : String) (actionType : Option String)
    (payload : List (String × J)) (currentState : String)
    (previousToolsCalled : List String)
    (counters toolCallCounts lastToolCallTimes : List (String × Int))
    (timestamp : Int) : EvalSt :=
  evalCommonHead policy toolName actionType currentState counters toolCallCounts
    (fun rule s0 =>
      finalizeEval toolName
        (checkCounterLimits policy
          (coreChecks rt policy rule toolName payload currentState
            previousToolsCalled toolCallCounts lastToolCallTimes timestamp s0)))

/-- `evaluateToolCall` of `src/supabase/functions/runtime-check/index.ts`
(lines 205-470): textually identical to the hardened evaluator except
that check 13 (counter ceilings) does not exist there. -/
def evaluateToolCallRC (rt : String → String → Option Bool) (policy : PolicySpec)
    (toolName : String) (actionType : Option String)
    (payload : List (String × J)) (currentState : String)
    (previousToolsCalled : List String)
    (counters toolCallCounts lastToolCallTimes : List (String × Int))
    (timestamp : Int) : EvalSt :=
  evalCommonHead policy toolName actionType currentState counters toolCallCounts
    (fun rule s0 =>
      finalizeEval toolName
        (coreChecks rt policy rule toolName payload currentState
          previousToolsCalled toolCallCounts lastToolCallTimes timestamp s0))

/-- Check 10 of `simulateToolCall` (`src/unnamed/part_003`): same
condition as the hardened check 10, message additionally names the
pattern. -/
def simCheckDenyRegex (rt : String → String → Option Bool) (rule : ToolRule)
    (toolName : String) (payload : List (String × J)) (s : EvalSt) : EvalSt :=
  forFailOpt (fun (c : RegexConstraint) =>
      match getJsonPathValue payload c.jsonPath with
      | some (J.str v) =>
        match rt c.pattern v with
        | some true =>
          some
            ⟨"REGEX_MATCH_DENIED",
             "Field \"" ++ c.jsonPath ++ "\" matches forbidden pattern \"" ++
               c.pattern ++ "\"",
             some ("toolRules." ++ toolName ++ ".denyIfRegexMatch")⟩
        | _ => none
      | _ => none)
    (rule.denyIfRegexMatch.getD []) s

/-- Check 11 of `simulateToolCall`: same condition as the hardened
check 11, messages additionally name the pattern. -/
def simCheckAllowRegex (rt : String → String → Option Bool) (rule : ToolRule)
    (toolName : String) (payload : List (String × J)) (s : EvalSt) : EvalSt :=
  forFailOpt (fun (c : RegexConstraint) =>
      match getJsonPathValue payload c.jsonPath with
      | some (J.str v) =>
        match rt c.pattern v with
        | some false =>
          some
            ⟨"REGEX_MATCH_REQUIRED",
             "Field \"" ++ c.jsonPath ++ "\" does not match required pattern \"" ++
               c.pattern ++ "\"",
             some ("toolRules." ++ toolName ++ ".allowOnlyIfRegexMatch")⟩
        | _ => none
      | _ =>
        some
          ⟨"REGEX_MATCH_REQUIRED",
           "Field \"" ++ c.jsonPath ++ "\" must exist and match pattern \"" ++
             c.pattern ++ "\"",
           some ("toolRules." ++ toolName ++ ".allowOnlyIfRegexMatch")⟩)
    (rule.allowOnlyIfRegexMatch.getD []) s

/-- Check 12 of `simulateToolCall`: same logic as the hardened check 12
but the transition `ruleRef`s name the concrete transition and the
informational success reason uses the code `STATE_VIOLATION` (the
source comments it as "a neutral code for success"). -/
def simCheckStateMachine (policy : PolicySpec) (toolName currentState : String)
    (previousToolsCalled : List String) (s : EvalSt) : EvalSt :=
  if s.allowed then
    match policy.stateMachine with
    | none => s
    | some sm =>
      match sm.transitions.find? (fun t =>
          t.triggeredByTool == toolName && t.fromState == currentState) with
      | none => s
      | some tr =>
        let s1 := forFailOpt (fun req =>
            if previousToolsCalled.contains req then none
            else some
              ⟨"REQUIRED_TOOLS_NOT_CALLED",
               "State transition requires \"" ++ req ++ "\" to be called first",
               some ("stateMachine.transitions[" ++ currentState ++ "->" ++
                 tr.toState ++ "]")⟩)
          (tr.requiresToolsCalledBefore.getD []) s
        let s2 :=
          if strTruthy tr.guard && s1.allowed then
            if evaluateGuard (tr.guard.getD "") s1.newCounters then s1
            else pushFail s1
              ⟨"GUARD_CONDITION_FAILED",
               "Guard condition \"" ++ tr.guard.getD "" ++ "\" not satisfied",
               some ("stateMachine.transitions[" ++ currentState ++ "->" ++
                 tr.toState ++ "].guard")⟩
          else s1
        if s2.allowed then
          { s2 with
            newState := tr.toState,
            reasons := s2.reasons ++
              [⟨"STATE_VIOLATION",
                "State transition: " ++ currentState ++ " -> " ++ tr.toState,
                none⟩],
            newCounters := applySetsCounters s2.newCounters (tr.setsCounters.getD []) }
        else s2
  else s

/-- Finalization of `simulateToolCall`: the empty-reasons fallback uses
the code `UNKNOWN_TOOL_DENIED` (commented "Using as neutral" in the
source). -/
def simFinalize (toolName : String) (s : EvalSt) : EvalSt :=
  if s.allowed then
    let bumped := recSet s.newToolCallCounts toolName
      (recGetD s.newToolCallCounts toolName 0 + 1)
    let s1 := { s with newToolCallCounts := bumped }
    if s1.reasons.isEmpty then
      { s1 with reasons :=
        [⟨"UNKNOWN_TOOL_DENIED", "All policy conditions satisfied", none⟩] }
    else s1
  else s

/-- `simulateToolCall` of the frontend policy-engine library
(`src/unnamed/part_003`, lines 76-427).  Checks 4-9 are textually
identical to the hardened evaluator and share its definitions; the
unknown-tool allow branch, the regex messages, the transition reason
and the finalization fallback differ, and there is no check 13. -/
def simulateToolCall (rt : String → String → Option Bool) (policy : PolicySpec)
    (toolName : String) (actionType : Option String)
    (payload : List (String × J)) (currentState : String)
    (previousToolsCalled : List String)
    (counters toolCallCounts lastToolCallTimes : List (String × Int))
    (timestamp : Int) : EvalSt :=
  let s0 : EvalSt :=
    { allowed := true, errorCode := none, reasons := [],
      newState := currentState,
      newCounters := initCounters counters policy,
      newToolCallCounts := toolCallCounts }
  match policy.toolRules.find? (fun r => r.toolName == toolName) with
  | none =>
    if policy.defaultDecision == "deny" then
      pushDeny s0
        ⟨"UNKNOWN_TOOL_DENIED",
         "Tool \"" ++ toolName ++
           "\" is not defined in policy and defaultDecision is \"deny\"",
         some "defaultDecision"⟩
    else
      { s0 with reasons := s0.reasons ++
          [⟨"UNKNOWN_TOOL_DENIED",
            "Tool \"" ++ toolName ++ "\" not in policy, allowed by defaultDecision",
            none⟩] }
  | some rule =>
    if rule.effect == "deny" then
      pushDeny s0
        ⟨"TOOL_EXPLICITLY_DENIED",
         "Tool \"" ++ toolName ++ "\" is explicitly denied by policy",
         some ("toolRules." ++ toolName ++ ".effect")⟩
    else
      let effectiveActionType := jsOrStr actionType rule.actionType
      if (effectiveActionType == some "side_effect" ||
          effectiveActionType == some "write") && rule.effect != "allow" then
        pushDeny s0
          ⟨"SIDE_EFFECT_NOT_ALLOWED",
           "Tool \"" ++ toolName ++ "\" is a " ++ effectiveActionType.getD "" ++
             " operation and must be explicitly allowed",
           some ("toolRules." ++ toolName ++ ".actionType")⟩
      else
        simFinalize toolName
          (simCheckStateMachine policy toolName currentState previousToolsCalled
            (simCheckAllowRegex rt rule toolName payload
              (simCheckDenyRegex rt rule toolName payload
                (checkForbiddenFields rule toolName payload
                  (checkRequiredFields rule toolName payload
                    (checkCooldown rule toolName lastToolCallTimes timestamp
                      (checkMaxCalls rule toolName toolCallCounts
                        (checkPrevTools rule toolName previousToolsCalled
                          (checkRequiredState rule toolName currentState s0)))))))))

/-- The sensitive key-name list of the hardened edge function
(`SENSITIVE_FIELDS`, `src/unnamed/part_002` lines 103-108). -/
def SENSITIVE_FIELDS : List String :=
  ["password", "passwd", "token", "apikey", "api_key", "authorization",
   "auth", "bearer", "ssn", "social_security", "credit_card", "creditcard",
   "card_number", "cvv", "cvc", "secret", "private_key", "access_token",
   "refresh_token", "session_token", "jwt", "cookie", "x-api-key"]

/-- ASCII lowercasing (JavaScript `toLowerCase` on the names involved). -/
def toLowerList (cs : List Char) : List Char :=
  cs.map Char.toLower

/-- `hay.includes(needle)` on strings as character lists. -/
def containsSub (needle hay : List Char) : Bool :=
  hay.tails.any (fun t => needle.isPrefixOf t)

/-- A key is sensitive when its lowercase form equals or contains one of
the sensitive names. -/
def isSensitiveKey (k : String) : Bool :=
  let lowerKey := toLowerList k.data
  SENSITIVE_FIELDS.any (fun f =>
    lowerKey == toLowerList f.data || containsSub (toLowerList f.data) lowerKey)

/-- Consume exactly `n` decimal digits. -/
def takeDigits : Nat → List Char → Option (List Char)
  | 0, cs => some cs
  | n + 1, c :: cs => if isDigitChar c then takeDigits n cs else none
  | _ + 1, [] => none

/-- The optional separator `[\s-]?` before a digit group.  The character
classes are disjoint from `\d`, so greedy matching without backtracking
is exact. -/
def skipOptSep : List Char → List Char
  | c :: cs => if isSpaceJS c || c == '-' then cs else c :: cs
  | [] => []

/-- `\d{4}[\s-]?\d{4}[\s-]?\d{4}[\s-]?\d{4}` at the current position. -/
def ccCore (cs : List Char) : Option (List Char) :=
  (takeDigits 4 cs).bind (fun r1 =>
    (takeDigits 4 (skipOptSep r1)).bind (fun r2 =>
      (takeDigits 4 (skipOptSep r2)).bind (fun r3 =>
        takeDigits 4 (skipOptSep r3))))

/-- `\d{3}[\s-]?\d{2}[\s-]?\d{4}` at the current position. -/
def ssnCore (cs : List Char) : Option (List Char) :=
  (takeDigits 3 cs).bind (fun r1 =>
    (takeDigits 2 (skipOptSep r1)).bind (fun r2 =>
      takeDigits 4 (skipOptSep r2)))

/-- Closing word boundary `\b` after a digit: end of input or a
non-word character. -/
def atCloseBoundary (rest : List Char) : Bool :=
  match rest.head? with
  | none => true
  | some c => !isWordCharJS c

/-- Unanchored regex search for `\b <core> \b` where the core starts and
ends with digits: try every position whose preceding character (if any)
is a non-word character. -/
def scanBounded (core : List Char → Option (List Char)) :
    Option Char → List Char → Bool
  | prev, cs =>
    ((match prev with
      | none => true
      | some p => !isWordCharJS p) &&
     (match core cs with
      | some rest => atCloseBoundary rest
      | none => false)) ||
    (match cs with
     | [] => false
     | c :: rest => scanBounded core (some c) rest)

/-- Test of `/\b\d{4}[\s-]?\d{4}[\s-]?\d{4}[\s-]?\d{4}\b/` (credit-card
shape). -/
def ccTest (s : String) : Bool :=
  scanBounded ccCore none s.data

/-- Test of `/\b\d{3}[\s-]?\d{2}[\s-]?\d{4}\b/` (SSN shape). -/
def ssnTest (s : String) : Bool :=
  scanBounded ssnCore none s.data

/-- The base64url character class `[A-Za-z0-9_-]`. -/
def isB64Url (c : Char) : Bool :=
  isWordCharJS c || c == '-'

/-- Test of `/^eyJ[A-Za-z0-9_-]+\.eyJ[A-Za-z0-9_-]+\.[A-Za-z0-9_-]+$/`
(JWT shape).  The class excludes `'.'`, so the greedy parse is exact. -/
def jwtTest (s : String) : Bool :=
  match s.data with
  | 'e' :: 'y' :: 'J' :: r1 =>
    let p1 := r1.span isB64Url
    if p1.1.isEmpty then false
    else
      match p1.2 with
      | '.' :: 'e' :: 'y' :: 'J' :: r2 =>
        let p2 := r2.span isB64Url
        if p2.1.isEmpty then false
        else
          match p2.2 with
          | '.' :: r3 =>
            let p3 := r3.span isB64Url
            !p3.1.isEmpty && p3.2.isEmpty
          | _ => false
      | _ => false
  | _ => false

/-- The value-pattern cascade of the redactor applied to a string leaf
reached under a non-sensitive key: credit card, else SSN, else JWT. -/
def redactString (s : String) : String :=
  if ccTest s then "[REDACTED:CC]"
  else if ssnTest s then "[REDACTED:SSN]"
  else if jwtTest s then "[REDACTED:JWT]"
  else s

mutual

/-- `redactSensitiveFields` of `src/unnamed/part_002` lines 228-269,
split by the branches of its `redactRecursive` loop body.  Note the
`Array.isArray` branch: it recurses only into items that are objects
(or arrays, which `typeof` also reports as `'object'`); string items of
an array value are left untouched.  An array reached through that
recursion is traversed as a record whose keys are its indices, and
digit-string keys are never sensitive.  `redactPlain` is the loop body
for a non-sensitive key. -/
def redactPlain : J → J
  | J.str s => J.str (redactString s)
  | J.arr items => J.arr (redactItems items)
  | J.obj fs => J.obj (redactFields fs)
  | v => v

def redactFields : List (String × J) → List (String × J)
  | [] => []
  | (k, v) :: rest =>
    (k, if isSensitiveKey k then J.str "[REDACTED]" else redactPlain v) ::
      redactFields rest

def redactItems : List J → List J
  | [] => []
  | J.obj fs :: rest => J.obj (redactFields fs) :: redactItems rest
  | J.arr xs :: rest => J.arr (redactIndexed xs) :: redactItems rest
  | v :: rest => v :: redactItems rest

def redactIndexed : List J → List J
  | [] => []
  | v :: rest => redactPlain v :: redactIndexed rest

end

/-- The redactor's entry point (the deep clone
`JSON.parse(JSON.stringify(payload))` is the identity on `J`). -/
def redactSensitiveFields (payload : List (String × J)) : List (String × J) :=
  redactFields payload

/-- JSON string escaping as performed by `JSON.stringify`. -/
def hexDigit (n : Nat) : Char :=
  if n < 10 then Char.ofNat ('0'.toNat + n) else Char.ofNat ('a'.toNat + n - 10)

def jsEscapeChar (c : Char) : List Char :=
  if c == '"' then ['\\', '"']
  else if c == '\\' then ['\\', '\\']
  else if c == '\n' then ['\\', 'n']
  else if c == '\r' then ['\\', 'r']
  else if c == '\t' then ['\\', 't']
  else if c.toNat == 8 then ['\\', 'b']
  else if c.toNat == 12 then ['\\', 'f']
  else if c.toNat < 32 then
    ['\\', 'u', '0', '0', hexDigit (c.toNat / 16), hexDigit (c.toNat % 16)]
  else [c]

def quoteStr (s : String) : String :=
  "\"" ++ String.mk (s.data.flatMap jsEscapeChar) ++ "\""

def joinComma (xs : List String) : String :=
  match xs with
  | [] => ""
  | x :: rest => rest.foldl (fun acc y => acc ++ "," ++ y) x

/- Compact `JSON.stringify` of a `J` value (integer numbers only, as
everywhere in this development). -/
mutual

/-- Compact `JSON.stringify` of a `J` value (integer numbers only, as
everywhere in this development). -/
def stringifyJ : J → String
  | J.null => "null"
  | J.bool true => "true"
  | J.bool false => "false"
  | J.num n => toString n
  | J.str s => quoteStr s
  | J.arr xs => "[" ++ joinComma (stringifyL xs) ++ "]"
  | J.obj fs => "\x7b" ++ joinComma (stringifyF fs) ++ "\x7d"

def stringifyL : List J → List String
  | [] => []
  | x :: xs => stringifyJ x :: stringifyL xs

def stringifyF : List (String × J) → List String
  | [] => []
  | (k, v) :: fs => (quoteStr k ++ ":" ++ stringifyJ v) :: stringifyF fs

end

/-- Lexicographic comparison of character lists (UTF-16 code-unit order
of JavaScript string comparison; all keys involved are ASCII). -/
def lexLt : List Char → List Char → Bool
  | [], [] => false
  | [], _ :: _ => true
  | _ :: _, [] => false
  | a :: as, b :: bs => if a < b then true else if b < a then false else lexLt as bs

def strLt (a b : String) : Bool :=
  lexLt a.data b.data

/-- Insertion sort of strings in lexicographic order: the effect of
JavaScript `Array.prototype.sort()` on (unique) key arrays. -/
def insertStr (x : String) : List String → List String
  | [] => [x]
  | y :: rest => if strLt x y then x :: y :: rest else y :: insertStr x rest

def sortStrings : List String → List String
  | [] => []
  | x :: rest => insertStr x (sortStrings rest)

def insertPair (p : String × J) : List (String × J) → List (String × J)
  | [] => [p]
  | q :: rest => if strLt p.1 q.1 then p :: q :: rest else q :: insertPair p rest

def sortPairsByKey : List (String × J) → List (String × J)
  | [] => []
  | p :: rest => insertPair p (sortPairsByKey rest)

mutual

/-- `sortObjectKeys` of `src/src/lib/policy-engine/hash.ts` lines 33-48:
recursively rebuild every object with its keys in sorted order; arrays
keep their element order. -/
def sortObjectKeysJ : J → J
  | J.arr xs => J.arr (sortKeysL xs)
  | J.obj fs => J.obj (sortPairsByKey (sortKeysF fs))
  | v => v

def sortKeysL : List J → List J
  | [] => []
  | x :: xs => sortObjectKeysJ x :: sortKeysL xs

def sortKeysF : List (String × J) → List (String × J)
  | [] => []
  | (k, v) :: fs => (k, sortObjectKeysJ v) :: sortKeysF fs

end

/-- The string hashed by the library's `computePolicyHash`
(`hash.ts` lines 24-28): `JSON.stringify(sortObjectKeys(policySpec))`. -/
def canonicalJson (j : J) : String :=
  stringifyJ (sortObjectKeysJ j)

/-- `JSON.stringify(value, keys)` with a replacer ARRAY: per ECMA-262
the replacer array becomes the `PropertyList`, which at EVERY object of
the tree selects exactly the listed keys (those present), in list
order; arrays are serialized in full.  Modelled by a structural
transformation followed by plain serialization. -/
def reorderFields (allow : List String) (fs : List (String × J)) :
    List (String × J) :=
  allow.filterMap (fun k => fs.find? (fun p => p.1 == k))

mutual

def filtJ (allow : List String) : J → J
  | J.arr xs => J.arr (filtL allow xs)
  | J.obj fs => J.obj (reorderFields allow (filtF allow fs))
  | v => v

def filtL (allow : List String) : List J → List J
  | [] => []
  | x :: xs => filtJ allow x :: filtL allow xs

def filtF (allow : List String) : List (String × J) → List (String × J)
  | [] => []
  | (k, v) :: fs => (k, filtJ allow v) :: filtF allow fs

end

def topLevelKeys (j : J) : List String :=
  match j with
  | J.obj fs => fs.map (fun p => p.1)
  | _ => []

/-- The string hashed by `computePolicyHash` of the hardened edge
function (`src/unnamed/part_002` lines 218-222):
`JSON.stringify(policySpec, Object.keys(policySpec).sort())`. -/
def edgeNormalizedJson (j : J) : String :=
  stringifyJ (filtJ (sortStrings (topLevelKeys j)) j)

/-- A row of the `policies` table as read by the handler's
published-policy query (`src/unnamed/part_002` lines 877-901). -/
structure PolicyRow where
  id : Nat
  version : Int
  policy_spec : PolicySpec
deriving DecidableEq, Repr

/-- An `execution_sessions` row, restricted to the fields the decision
path reads and writes. -/
structure SessionRow where
  policy_id : Nat
  policy_version_locked : Option Int
  current_state : String
  counters : List (String × Int)
  tool_calls_history : List String
  tool_call_counts : List (String × Int)
  last_tool_call_times : List (String × Int)
deriving DecidableEq, Repr

/-- A row of the immutable `policy_versions` table (created by the
migration in `src/unnamed/part_001`). -/
structure PolicyVersionRow where
  policy_id : Nat
  version : Int
  spec : PolicySpec
deriving DecidableEq, Repr

/-- Modelled from the spec: `getByIdAndVersion(policyId, version)` of
§4.3, "returning the exact immutable spec".  The repository has the
`policy_versions` table for these rows, but no code on the decision
path reads a spec from it; the handler is compared against this
reference. -/
def getByIdAndVersion (versions : List PolicyVersionRow) (pid : Nat) (v : Int) :
    Option PolicySpec :=
  (versions.find? (fun r => r.policy_id == pid && r.version == v)).map
    (fun r => r.spec)

/-- The spec the hardened handler hands to `evaluateToolCall` for a
request on an existing session: the `policy_spec` of the highest
published policy row of the environment (`src/unnamed/part_002` lines
899 and 998-1009).  The session row does not influence it. -/
def handlerSpecUsed (published : PolicyRow) (_session : SessionRow) : PolicySpec :=
  published.policy_spec

/-- The `policyVersionUsed` the handler reports:
`session.policy_version_locked ?? policyVersion`
(`src/unnamed/part_002` line 988). -/
def handlerVersionUsed (published : PolicyRow) (session : SessionRow) : Int :=
  session.policy_version_locked.getD published.version

/-- The evaluation the hardened handler performs for a request on an
existing session (`src/unnamed/part_002` lines 990-1009): the published
spec, the session's stored state, and the request's fields. -/
def handlerEvaluate (rt : String → String → Option Bool) (published : PolicyRow)
    (session : SessionRow) (toolName : String) (actionType : Option String)
    (payload : List (String × J)) (timestamp : Int) : EvalSt :=
  evaluateToolCall rt (handlerSpecUsed published session) toolName actionType
    payload session.current_state session.tool_calls_history session.counters
    session.tool_call_counts session.last_tool_call_times timestamp

/-- `MAX_HISTORY_LENGTH` of the hardened configuration. -/
def MAX_HISTORY_LENGTH : Nat := 10000

/-- The new `tool_calls_history` computed at `src/unnamed/part_002`
lines 1047-1049: append, or keep the last `MAX_HISTORY_LENGTH - 1`
entries and append (`slice(-MAX_HISTORY_LENGTH + 1)`). -/
def updatedHistory (history : List String) (toolName : String) : List String :=
  if history.length < MAX_HISTORY_LENGTH then history ++ [toolName]
  else (history.drop (history.length - (MAX_HISTORY_LENGTH - 1))) ++ [toolName]

/-- The session-state update the hardened handler issues after logging
(`src/unnamed/part_002` lines 1043-1061).  The `UPDATE` is executed for
every request — the statement is not conditioned on the decision — so
this function is applied to blocked requests too. -/
def sessionUpdate (session : SessionRow) (result : EvalSt) (toolName : String)
    (timestamp : Int) : SessionRow :=
  { session with
    current_state := result.newState,
    counters := result.newCounters,
    tool_calls_history := updatedHistory session.tool_calls_history toolName,
    tool_call_counts := result.newToolCallCounts,
    last_tool_call_times := recSet session.last_tool_call_times toolName timestamp }

/-- `RATE_LIMIT_REQUESTS_PER_MINUTE` of the hardened configuration. -/
def RATE_LIMIT_REQUESTS_PER_MINUTE : Nat := 1000

/-- One request's rate-limit interaction (`src/unnamed/part_002` lines
837-873) for the `(apiKeyId, windowStart)` row of the current window:
the upsert (`ignoreDuplicates: false`) INSERTs or, on conflict,
UPDATEs the row to `request_count = 1` and returns that row; a second
statement then sets `request_count` to the returned value plus one; the
request is answered 429 exactly when the returned (pre-second-update)
value is `≥ RATE_LIMIT_REQUESTS_PER_MINUTE`.  The prior row content
`_row` is overwritten by the upsert. -/
def rateLimitStep (_row : Option Nat) : Option Nat × Bool :=
  let observed : Nat := 1
  (some (observed + 1), decide (observed ≥ RATE_LIMIT_REQUESTS_PER_MINUTE))

/-- `n` sequential requests inside one rate window, returning the final
row and how many of the requests were rate-limited. -/
def runRateRequests : Nat → Option Nat → Option Nat × Nat
  | 0, row => (row, 0)
  | n + 1, row =>
    let step := rateLimitStep row
    let rest := runRateRequests n step.1
    (rest.1, (if step.2 then 1 else 0) + rest.2)

/-- A regex oracle for inputs whose rules carry no regex constraints
(its value is never consulted there); it models patterns on which the
`RegExp` constructor throws. -/
def rtSkip : String → String → Option Bool := fun _ _ => none

/-- The end-to-end scenario policy of spec §8: `defaultDecision = deny`,
`verify_identity` (allow/write), `refund_payment` (allow/side_effect,
requireState verified, requires verify_identity first, requires orderId
and amount, max 1 call), and the three-state machine. -/
def examplePolicy : PolicySpec :=
  { version := "1.0", defaultDecision := "deny",
    toolRules :=
      [ { toolName := "verify_identity", effect := "allow",
          actionType := some "write" },
        { toolName := "refund_payment", effect := "allow",
          actionType := some "side_effect",
          maxCallsPerSession := some 1,
          requireState := some "verified",
          requirePreviousToolCalls := some ["verify_identity"],
          requireFields := some ["orderId", "amount"] } ],
    stateMachine := some
      { states := ["initial", "verified", "refund_issued"],
        initialState := "initial",
        transitions :=
          [ { fromState := "initial", toState := "verified",
              triggeredByTool := "verify_identity" },
            { fromState := "verified", toState := "refund_issued",
              triggeredByTool := "refund_payment" } ] },
    counters := none }

/-- The payload of scenario step 1. -/
def examplePayload : List (String × J) :=
  [("orderId", J.str "o1"), ("amount", J.num 100)]

/-- A policy that allows by default and defines no rules. -/
def allowAllPolicy : PolicySpec :=
  { version := "1.0", defaultDecision := "allow", toolRules := [] }

/-- A policy that denies by default and defines no rules. -/
def denyAllPolicy : PolicySpec :=
  { version := "1.0", defaultDecision := "deny", toolRules := [] }

/-- A policy whose guarded self-loop pushes a ceilinged counter past its
`maxValue`: the hardened evaluator blocks via check 13, the legacy and
simulator evaluators have no such check. -/
def ceilingPolicy : PolicySpec :=
  { version := "1.0", defaultDecision := "deny",
    toolRules := [ { toolName := "t", effect := "allow" } ],
    stateMachine := some
      { states := ["initial"], initialState := "initial",
        transitions :=
          [ { fromState := "initial", toState := "initial",
              triggeredByTool := "t", guard := some "c <= 5",
              setsCounters := some [("c", 10)] } ] },
    counters := some
      [ { name := "c", scope := "session", initialValue := 0,
          maxValue := some 5 } ] }

/-- Version-1 spec of the session-lock scenario: denies everything. -/
def lockSpecV1 : PolicySpec :=
  { version := "1.0", defaultDecision := "deny", toolRules := [] }

/-- Version-2 spec of the session-lock scenario: allows everything. -/
def lockSpecV2 : PolicySpec :=
  { version := "1.1", defaultDecision := "allow", toolRules := [] }

/-- The currently published policy row after the re-publish: version 2
with the allow-all spec. -/
def publishedRowV2 : PolicyRow :=
  { id := 1, version := 2, policy_spec := lockSpecV2 }

/-- The immutable version store holding both published versions. -/
def lockVersionStore : List PolicyVersionRow :=
  [ { policy_id := 1, version := 1, spec := lockSpecV1 },
    { policy_id := 1, version := 2, spec := lockSpecV2 } ]

/-- A session created while version 1 was published: it locked
`policy_version_locked = 1` and has seen no calls yet. -/
def lockedSession : SessionRow :=
  { policy_id := 1, policy_version_locked := some 1,
    current_state := "initial", counters := [], tool_calls_history := [],
    tool_call_counts := [], last_tool_call_times := [] }

/-- A fresh session row (no calls recorded). -/
def freshSession : SessionRow :=
  { policy_id := 1, policy_version_locked := some 1,
    current_state := "initial", counters := [], tool_calls_history := [],
    tool_call_counts := [], last_tool_call_times := [] }

/-- A policy-spec rendering as stored JSON: version, defaultDecision and
one tool rule allowing tool "a". -/
def hashSpecA : J :=
  J.obj
    [("version", J.str "1.0"), ("defaultDecision", J.str "deny"),
     ("toolRules", J.arr [J.obj [("toolName", J.str "a"), ("effect", J.str "allow")]])]

/-- The same rendering except the rule's effect is "deny": a materially
different policy. -/
def hashSpecB : J :=
  J.obj
    [("version", J.str "1.0"), ("defaultDecision", J.str "deny"),
     ("toolRules", J.arr [J.obj [("toolName", J.str "a"), ("effect", J.str "deny")]])]

/-- A key-shuffled rendering of `hashSpecA` (top level and inside the
rule object). -/
def hashSpecAShuffled : J :=
  J.obj
    [("toolRules", J.arr [J.obj [("effect", J.str "allow"), ("toolName", J.str "a")]]),
     ("version", J.str "1.0"), ("defaultDecision", J.str "deny")]

/-- The payload refuting redaction soundness: an SSN-shaped string as a
direct element of an array value. -/
def ssnArrayPayload : List (String × J) :=
  [("a", J.arr [J.str "123-45-6789"])]

/-- Projection of an evaluation result onto the decision outputs
(everything except the reason list). -/
def projEval (s : EvalSt) :
    Bool × Option String × String × List (String × Int) × List (String × Int) :=
  (s.allowed, s.errorCode, s.newState, s.newCounters, s.newToolCallCounts)

/-- No counter of the policy declares a `maxValue` (check 13 cannot
fire). -/
def noCounterCeilings (p : PolicySpec) : Bool :=
  (p.counters.getD []).all (fun d => d.maxValue.isNone)

/-- The informational reason codes of the hardened evaluator; every
other pushed code is a denial. -/
def isBlockingReason (r : DecisionReason) : Bool :=
  r.code != "STATE_TRANSITION" && r.code != "ALLOWED"

/-- `if (!errorCode)` accumulation over an appended failure list. -/
def codeAfter (e : Option String) (fs : List DecisionReason) : Option String :=
  match e with
  | some c => some c
  | none => fs.head?.map (fun r => r.code)

/-- Appending a failure list to the evaluation state: every element
clears `allowed`, the first element claims `errorCode` if unset. -/
def appendFails (s : EvalSt) (fs : List DecisionReason) : EvalSt :=
  { s with allowed := s.allowed && fs.isEmpty,
           errorCode := codeAfter s.errorCode fs,
           reasons := s.reasons ++ fs }

/-- Reference (spec §4.2, check 4): the required-state failure list. -/
def failsRequiredState (rule : ToolRule) (toolName currentState : String) :
    List DecisionReason :=
  if strTruthy rule.requireState && rule.requireState != some currentState then
    [⟨"REQUIRED_STATE_NOT_MET",
      "Tool \"" ++ toolName ++ "\" requires state \"" ++ rule.requireState.getD "" ++
        "\" but current state is \"" ++ currentState ++ "\"",
      some ("toolRules." ++ toolName ++ ".requireState")⟩]
  else []

/-- Reference (spec §4.2, check 5): one failure per required previous
tool missing from the history, in rule order. -/
def failsPrevTools (rule : ToolRule) (toolName : String)
    (previousToolsCalled : List String) : List DecisionReason :=
  (rule.requirePreviousToolCalls.getD []).filterMap (fun req =>
    if previousToolsCalled.contains req then none
    else some
      ⟨"REQUIRED_TOOLS_NOT_CALLED",
       "Tool \"" ++ toolName ++ "\" requires \"" ++ req ++ "\" to be called first",
       some ("toolRules." ++ toolName ++ ".requirePreviousToolCalls")⟩)

/-- Reference (spec §4.2, check 6). -/
def failsMaxCalls (rule : ToolRule) (toolName : String)
    (toolCallCounts : List (String × Int)) : List DecisionReason :=
  match rule.maxCallsPerSession with
  | none => []
  | some maxCalls =>
    if recGetD toolCallCounts toolName 0 ≥ maxCalls then
      [⟨"MAX_CALLS_EXCEEDED",
        "Tool \"" ++ toolName ++ "\" has reached maximum calls (" ++
          toString maxCalls ++ ") for this session",
        some ("toolRules." ++ toolName ++ ".maxCallsPerSession")⟩]
    else []

/-- Reference (spec §4.2, check 7). -/
def failsCooldown (rule : ToolRule) (toolName : String)
    (lastToolCallTimes : List (String × Int)) (timestamp : Int) :
    List DecisionReason :=
  match rule.cooldownMs with
  | none => []
  | some cooldown =>
    match recGet lastToolCallTimes toolName with
    | none => []
    | some lastTime =>
      if timestamp - lastTime < cooldown then
        [⟨"COOLDOWN_ACTIVE",
          "Tool \"" ++ toolName ++ "\" is in cooldown. " ++
            toString (cooldown - (timestamp - lastTime)) ++ "ms remaining",
          some ("toolRules." ++ toolName ++ ".cooldownMs")⟩]
      else []

/-- Reference (spec §4.2, check 8). -/
def failsRequiredFields (rule : ToolRule) (toolName : String)
    (payload : List (String × J)) : List DecisionReason :=
  (rule.requireFields.getD []).filterMap (fun field =>
    if (getJsonPathValue payload field).isNone then
      some
        ⟨"REQUIRED_FIELD_MISSING",
         "Required field \"" ++ field ++ "\" is missing from payload",
         some ("toolRules." ++ toolName ++ ".requireFields")⟩
    else none)

/-- Reference (spec §4.2, check 9). -/
def failsForbiddenFields (rule : ToolRule) (toolName : String)
    (payload : List (String × J)) : List DecisionReason :=
  (rule.denyIfFieldsPresent.getD []).filterMap (fun field =>
    if (getJsonPathValue payload field).isSome then
      some
        ⟨"FORBIDDEN_FIELD_PRESENT",
         "Field \"" ++ field ++ "\" is forbidden in payload",
         some ("toolRules." ++ toolName ++ ".denyIfFieldsPresent")⟩
    else none)

/-- Reference (spec §4.2, check 10). -/
def failsDenyRegex (rt : String → String → Option Bool) (rule : ToolRule)
    (toolName : String) (payload : List (String × J)) : List DecisionReason :=
  (rule.denyIfRegexMatch.getD []).filterMap (fun (c : RegexConstraint) =>
    match getJsonPathValue payload c.jsonPath with
    | some (J.str v) =>
      match rt c.pattern v with
      | some true =>
        some
          ⟨"REGEX_MATCH_DENIED",
           "Field \"" ++ c.jsonPath ++ "\" matches forbidden pattern",
           some ("toolRules." ++ toolName ++ ".denyIfRegexMatch")⟩
      | _ => none
    | _ => none)

/-- Reference (spec §4.2, check 11). -/
def failsAllowRegex (rt : String → String → Option Bool) (rule : ToolRule)
    (toolName : String) (payload : List (String × J)) : List DecisionReason :=
  (rule.allowOnlyIfRegexMatch.getD []).filterMap (fun (c : RegexConstraint) =>
    match getJsonPathValue payload c.jsonPath with
    | some (J.str v) =>
      match rt c.pattern v with
      | some false =>
        some
          ⟨"REGEX_MATCH_REQUIRED",
           "Field \"" ++ c.jsonPath ++ "\" does not match required pattern",
           some ("toolRules." ++ toolName ++ ".allowOnlyIfRegexMatch")⟩
      | _ => none
    | _ =>
      some
        ⟨"REGEX_MATCH_REQUIRED",
         "Field \"" ++ c.jsonPath ++ "\" must exist and match pattern",
         some ("toolRules." ++ toolName ++ ".allowOnlyIfRegexMatch")⟩)

/-- Reference: the concatenated failures of the non-terminal rule
checks 4-11, in normative order. -/
def refBaseFails (rt : String → String → Option Bool) (rule : ToolRule)
    (toolName : String) (payload : List (String × J)) (currentState : String)
    (previousToolsCalled : List String)
    (toolCallCounts lastToolCallTimes : List (String × Int)) (timestamp : Int) :
    List DecisionReason :=
  failsRequiredState rule toolName currentState ++
  failsPrevTools rule toolName previousToolsCalled ++
  failsMaxCalls rule toolName toolCallCounts ++
  failsCooldown rule toolName lastToolCallTimes timestamp ++
  failsRequiredFields rule toolName payload ++
  failsForbiddenFields rule toolName payload ++
  failsDenyRegex rt rule toolName payload ++
  failsAllowRegex rt rule toolName payload

/-- Reference (spec §4.2, check 12): the unique transition keyed on
`(fromState = currentState, triggeredByTool = toolName)`. -/
def transitionOf (policy : PolicySpec) (toolName currentState : String) :
    Option StateTransition :=
  policy.stateMachine.bind (fun sm =>
    sm.transitions.find? (fun t =>
      t.triggeredByTool == toolName && t.fromState == currentState))

/-- Reference: transition-prerequisite failures. -/
def failsTransTools (tr : StateTransition)
    (previousToolsCalled : List String) : List DecisionReason :=
  (tr.requiresToolsCalledBefore.getD []).filterMap (fun req =>
    if previousToolsCalled.contains req then none
    else some
      ⟨"REQUIRED_TOOLS_NOT_CALLED",
       "State transition requires \"" ++ req ++ "\" to be called first",
       some "stateMachine.transitions"⟩)

/-- Reference: guard failure (the guard is only consulted when it is
truthy and the prerequisites all passed). -/
def failsGuard (tr : StateTransition) (previousToolsCalled : List String)
    (workingCounters : List (String × Int)) : List DecisionReason :=
  if strTruthy tr.guard && (failsTransTools tr previousToolsCalled).isEmpty &&
      !evaluateGuard (tr.guard.getD "") workingCounters then
    [⟨"GUARD_CONDITION_FAILED",
      "Guard condition \"" ++ tr.guard.getD "" ++ "\" not satisfied",
      some "stateMachine.transitions"⟩]
  else []

/-- Reference: the transition fires when its prerequisites and guard
produced no failures. -/
def smApplied (tr : StateTransition) (previousToolsCalled : List String)
    (workingCounters : List (String × Int)) : Bool :=
  (failsTransTools tr previousToolsCalled).isEmpty &&
  (failsGuard tr previousToolsCalled workingCounters).isEmpty

/-- Reference: the blocking failures of check 12. -/
def smBlockFails (policy : PolicySpec) (toolName currentState : String)
    (previousToolsCalled : List String) (workingCounters : List (String × Int)) :
    List DecisionReason :=
  match transitionOf policy toolName currentState with
  | none => []
  | some tr =>
    failsTransTools tr previousToolsCalled ++
    failsGuard tr previousToolsCalled workingCounters

/-- Reference: the informational `STATE_TRANSITION` reason of an
applied transition. -/
def smInfoReasons (policy : PolicySpec) (toolName currentState : String)
    (previousToolsCalled : List String) (workingCounters : List (String × Int)) :
    List DecisionReason :=
  match transitionOf policy toolName currentState with
  | none => []
  | some tr =>
    if smApplied tr previousToolsCalled workingCounters then
      [⟨"STATE_TRANSITION",
        "State transition: " ++ currentState ++ " -> " ++ tr.toState, none⟩]
    else []

/-- Reference: the state after check 12. -/
def refNewState (policy : PolicySpec) (toolName currentState : String)
    (previousToolsCalled : List String) (workingCounters : List (String × Int)) :
    String :=
  match transitionOf policy toolName currentState with
  | none => currentState
  | some tr =>
    if smApplied tr previousToolsCalled workingCounters then tr.toState
    else currentState

/-- Reference: the working counters after check 12. -/
def refCountersAfterSm (policy : PolicySpec) (toolName currentState : String)
    (previousToolsCalled : List String) (workingCounters : List (String × Int)) :
    List (String × Int) :=
  match transitionOf policy toolName currentState with
  | none => workingCounters
  | some tr =>
    if smApplied tr previousToolsCalled workingCounters then
      applySetsCounters workingCounters (tr.setsCounters.getD [])
    else workingCounters

/-- Reference (spec §4.2, check 13): counter-ceiling failures against
the working counters. -/
def failsCounterLimits (policy : PolicySpec)
    (workingCounters : List (String × Int)) : List DecisionReason :=
  (policy.counters.getD []).filterMap (fun (d : CounterDef) =>
    match d.maxValue with
    | none => none
    | some mv =>
      match recGet workingCounters d.name with
      | some v =>
        if v > mv then
          some
            ⟨"COUNTER_LIMIT_EXCEEDED",
             "Counter \"" ++ d.name ++ "\" would exceed maximum value (" ++
               toString mv ++ ")",
             some ("counters." ++ d.name ++ ".maxValue")⟩
        else none
      | none => none)

/-- Reference: the complete ordered reason list of one evaluation,
assembled strictly in the normative check order 1-13 of spec §4.2:
terminal checks 1-3 return their single reason; otherwise the failures
of checks 4-11 in order, then (only when 4-11 all passed) the check-12
reasons, then the check-13 failures, then the `ALLOWED` fallback for an
allowed call with no other reason. -/
def refReasons (rt : String → String → Option Bool) (policy : PolicySpec)
    (toolName : String) (actionType : Option String)
    (payload : List (String × J)) (currentState : String)
    (previousToolsCalled : List String)
    (counters toolCallCounts lastToolCallTimes : List (String × Int))
    (timestamp : Int) : List DecisionReason :=
  match policy.toolRules.find? (fun r => r.toolName == toolName) with
  | none =>
    if policy.defaultDecision == "deny" then
      [⟨"UNKNOWN_TOOL_DENIED",
        "Tool \"" ++ toolName ++
          "\" is not defined in policy and defaultDecision is \"deny\"",
        some "defaultDecision"⟩]
    else []
  | some rule =>
    if rule.effect == "deny" then
      [⟨"TOOL_EXPLICITLY_DENIED",
        "Tool \"" ++ toolName ++ "\" is explicitly denied by policy",
        some ("toolRules." ++ toolName ++ ".effect")⟩]
    else
      let effectiveActionType := jsOrStr actionType rule.actionType
      if (effectiveActionType == some "side_effect" ||
          effectiveActionType == some "write") && rule.effect != "allow" then
        [⟨"SIDE_EFFECT_NOT_ALLOWED",
          "Tool \"" ++ toolName ++ "\" is a " ++ effectiveActionType.getD "" ++
            " operation and must be explicitly allowed",
          some ("toolRules." ++ toolName ++ ".actionType")⟩]
      else
        let w := initCounters counters policy
        let base := refBaseFails rt rule toolName payload currentState
          previousToolsCalled toolCallCounts lastToolCallTimes timestamp
        let smB := if base.isEmpty then
            smBlockFails policy toolName currentState previousToolsCalled w
          else []
        let smI := if base.isEmpty then
            smInfoReasons policy toolName currentState previousToolsCalled w
          else []
        let wFinal := if base.isEmpty then
            refCountersAfterSm policy toolName currentState previousToolsCalled w
          else w
        let f13 := failsCounterLimits policy wFinal
        let all := base ++ smB ++ smI ++ f13
        if (base.isEmpty && smB.isEmpty && f13.isEmpty) && all.isEmpty then
          [⟨"ALLOWED", "All policy conditions satisfied", none⟩]
        else all

/-- The operator spellings of the guard grammar. -/
def opChars : GuardOp → List Char
  | GuardOp.le => ['<', '=']
  | GuardOp.lt => ['<']
  | GuardOp.ge => ['>', '=']
  | GuardOp.gt => ['>']
  | GuardOp.eqOp => ['=', '=']
  | GuardOp.neOp => ['!', '=']

/-- Reference: check-12 transition-prerequisite failures as pushed by
`simulateToolCall` (same condition and code as the hardened evaluator,
different `ruleRef`). -/
def simFailsTransTools (tr : StateTransition) (cs : String)
    (prev : List String) : List DecisionReason :=
  (tr.requiresToolsCalledBefore.getD []).filterMap (fun req =>
    if prev.contains req then none
    else some
      ⟨"REQUIRED_TOOLS_NOT_CALLED",
       "State transition requires \"" ++ req ++ "\" to be called first",
       some ("stateMachine.transitions[" ++ cs ++ "->" ++ tr.toState ++ "]")⟩)

/-- Reference: the simulator's guard failure. -/
def simFailsGuard (tr : StateTransition) (cs : String) (prev : List String)
    (workingCounters : List (String × Int)) : List DecisionReason :=
  if strTruthy tr.guard && (simFailsTransTools tr cs prev).isEmpty &&
      !evaluateGuard (tr.guard.getD "") workingCounters then
    [⟨"GUARD_CONDITION_FAILED",
      "Guard condition \"" ++ tr.guard.getD "" ++ "\" not satisfied",
      some ("stateMachine.transitions[" ++ cs ++ "->" ++ tr.toState ++ "].guard")⟩]
  else []

/-- Reference: the simulator's transition fires when its prerequisites
and guard produced no failures. -/
def simSmApplied (tr : StateTransition) (cs : String) (prev : List String)
    (workingCounters : List (String × Int)) : Bool :=
  (simFailsTransTools tr cs prev).isEmpty &&
  (simFailsGuard tr cs prev workingCounters).isEmpty

/-- Reference: the simulator's blocking check-12 failures. -/
def simSmBlockFails (policy : PolicySpec) (toolName currentState : String)
    (prev : List String) (workingCounters : List (String × Int)) :
    List DecisionReason :=
  match transitionOf policy toolName currentState with
  | none => []
  | some tr =>
    simFailsTransTools tr currentState prev ++
    simFailsGuard tr currentState prev workingCounters

/-- Reference: the simulator's informational transition reason (code
`STATE_VIOLATION`). -/
def simSmInfoReasons (policy : PolicySpec) (toolName currentState : String)
    (prev : List String) (workingCounters : List (String × Int)) :
    List DecisionReason :=
  match transitionOf policy toolName currentState with
  | none => []
  | some tr =>
    if simSmApplied tr currentState prev workingCounters then
      [⟨"STATE_VIOLATION",
        "State transition: " ++ currentState ++ " -> " ++ tr.toState, none⟩]
    else []

/-- Reference: the simulator's state after check 12. -/
def simRefNewState (policy : PolicySpec) (toolName currentState : String)
    (prev : List String) (workingCounters : List (String × Int)) : String :=
  match transitionOf policy toolName currentState with
  | none => currentState
  | some tr =>
    if simSmApplied tr currentState prev workingCounters then tr.toState
    else currentState

/-- Reference: the simulator's working counters after check 12. -/
def simRefCountersAfterSm (policy : PolicySpec) (toolName currentState : String)
    (prev : List String) (workingCounters : List (String × Int)) :
    List (String × Int) :=
  match transitionOf policy toolName currentState with
  | none => workingCounters
  | some tr =>
    if simSmApplied tr currentState prev workingCounters then
      applySetsCounters workingCounters (tr.setsCounters.getD [])
    else workingCounters

/-- Reference: the simulator's check-10 failures (hardened condition,
pattern-bearing message). -/
def simFailsDenyRegex (rt : String → String → Option Bool) (rule : ToolRule)
    (toolName : String) (payload : List (String × J)) : List DecisionReason :=
  (rule.denyIfRegexMatch.getD []).filterMap (fun (c : RegexConstraint) =>
    match getJsonPathValue payload c.jsonPath with
    | some (J.str v) =>
      match rt c.pattern v with
      | some true =>
        some
          ⟨"REGEX_MATCH_DENIED",
           "Field \"" ++ c.jsonPath ++ "\" matches forbidden pattern \"" ++
             c.pattern ++ "\"",
           some ("toolRules." ++ toolName ++ ".denyIfRegexMatch")⟩
      | _ => none
    | _ => none)

/-- Reference: the simulator's check-11 failures. -/
def simFailsAllowRegex (rt : String → String → Option Bool) (rule : ToolRule)
    (toolName : String) (payload : List (String × J)) : List DecisionReason :=
  (rule.allowOnlyIfRegexMatch.getD []).filterMap (fun (c : RegexConstraint) =>
    match getJsonPathValue payload c.jsonPath with
    | some (J.str v) =>
      match rt c.pattern v with
      | some false =>
        some
          ⟨"REGEX_MATCH_REQUIRED",
           "Field \"" ++ c.jsonPath ++ "\" does not match required pattern \"" ++
             c.pattern ++ "\"",
           some ("toolRules." ++ toolName ++ ".allowOnlyIfRegexMatch")⟩
      | _ => none
    | _ =>
      some
        ⟨"REGEX_MATCH_REQUIRED",
         "Field \"" ++ c.jsonPath ++ "\" must exist and match pattern \"" ++
           c.pattern ++ "\"",
         some ("toolRules." ++ toolName ++ ".allowOnlyIfRegexMatch")⟩)

/-- Reference: the simulator's concatenated failures of checks 4-11
(4-9 are shared with the hardened evaluator). -/
def simBaseFails (rt : String → String → Option Bool) (rule : ToolRule)
    (toolName : String) (payload : List (String × J)) (currentState : String)
    (previousToolsCalled : List String)
    (toolCallCounts lastToolCallTimes : List (String × Int)) (timestamp : Int) :
    List DecisionReason :=
  failsRequiredState rule toolName currentState ++
  failsPrevTools rule toolName previousToolsCalled ++
  failsMaxCalls rule toolName toolCallCounts ++
  failsCooldown rule toolName lastToolCallTimes timestamp ++
  failsRequiredFields rule toolName payload ++
  failsForbiddenFields rule toolName payload ++
  simFailsDenyRegex rt rule toolName payload ++
  simFailsAllowRegex rt rule toolName payload

/-- Claim C1 (counterevidence): on a session locked to policy version 1,
the hardened handler hands the evaluator the spec of the currently
published version 2 (`handlerSpecUsed`), not the immutable spec
`getByIdAndVersion(s.policyId, s.policyVersionLocked)` — here the two
specs decide the same request differently (version 1 blocks, the
handler allows) — while still labelling the response with the locked
version 1. -/
theorem session_lock_not_used_for_spec :
    handlerSpecUsed publishedRowV2 lockedSession = lockSpecV2 ∧
    getByIdAndVersion lockVersionStore 1 1 = some lockSpecV1 ∧
    handlerSpecUsed publishedRowV2 lockedSession ≠ lockSpecV1 ∧
    (handlerEvaluate rtSkip publishedRowV2 lockedSession "some_tool" none [] 0).allowed
      = true ∧
    (evaluateToolCall rtSkip lockSpecV1 "some_tool" none [] "initial" [] [] [] [] 0).allowed
      = false ∧
    handlerVersionUsed publishedRowV2 lockedSession = 1 := by
  refine ⟨rfl, by decide, by decide, by decide, by decide, by decide⟩

/-- Claim C2 (counterevidence): the hardened handler applies the
session `UPDATE` to every request, so a blocked request mutates the
row — on a fresh session, a request for an unknown tool under
`defaultDecision = deny` is blocked yet appends the tool to
`tool_calls_history` and records it in `last_tool_call_times`, leaving
a tool in `lastToolCallTimes` that never had an allowed call. -/
theorem blocked_request_mutates_session :
    (evaluateToolCall rtSkip denyAllPolicy "x" none [] "initial" [] [] [] [] 1000).allowed
      = false ∧
    sessionUpdate freshSession
        (evaluateToolCall rtSkip denyAllPolicy "x" none [] "initial" [] [] [] [] 1000)
        "x" 1000 ≠ freshSession ∧
    (sessionUpdate freshSession
        (evaluateToolCall rtSkip denyAllPolicy "x" none [] "initial" [] [] [] [] 1000)
        "x" 1000).tool_calls_history = ["x"] ∧
    (sessionUpdate freshSession
        (evaluateToolCall rtSkip denyAllPolicy "x" none [] "initial" [] [] [] [] 1000)
        "x" 1000).last_tool_call_times = [("x", 1000)] := by
  refine ⟨by decide, by decide, by decide, by decide⟩

/-- Claim C4 (counterevidence): the hardened edge function's
`computePolicyHash` serializes with
`JSON.stringify(spec, Object.keys(spec).sort())`, where the replacer
array is a property whitelist applied at every depth — so the two
materially different specs `hashSpecA` and `hashSpecB` (a rule's
effect flipped) serialize, and therefore hash, identically, and the
serialization is not the canonical key-sorted JSON that the claim (and
the library's `hash.ts`, which does satisfy it) prescribes. -/
theorem edge_policy_hash_not_canonical :
    hashSpecA ≠ hashSpecB ∧
    edgeNormalizedJson hashSpecA = edgeNormalizedJson hashSpecB ∧
    edgeNormalizedJson hashSpecA ≠ canonicalJson hashSpecA ∧
    canonicalJson hashSpecA ≠ canonicalJson hashSpecB ∧
    canonicalJson hashSpecA = canonicalJson hashSpecAShuffled ∧
    edgeNormalizedJson hashSpecA = edgeNormalizedJson hashSpecAShuffled := by
  refine ⟨by decide, by decide, by decide, by decide, by decide, by decide⟩

/-- Claim C6 (counterevidence): when no rule matches and
`defaultDecision = allow`, the hardened evaluator returns from check 1
without pushing any reason (the `ALLOWED` fallback of the finalization
is bypassed by the early return), so this allowed evaluation has an
empty reason sequence. -/
theorem unknown_tool_allow_empty_reasons :
    (evaluateToolCall rtSkip allowAllPolicy "some_tool" none [] "initial" [] [] [] [] 0).allowed
      = true ∧
    (evaluateToolCall rtSkip allowAllPolicy "some_tool" none [] "initial" [] [] [] [] 0).reasons
      = [] ∧
    (evaluateToolCall rtSkip allowAllPolicy "some_tool" none [] "initial" [] [] [] [] 0).errorCode
      = none := by
  refine ⟨by decide, by decide, by decide⟩

/-- Claim C7 (counterevidence): the redactor's array branch recurses
only into object-typed items, so an SSN-shaped string that is a direct
element of an array value survives redaction verbatim, and the
re-serialized output still contains the SSN-shaped substring. -/
theorem redactor_misses_array_strings :
    ssnTest "123-45-6789" = true ∧
    redactSensitiveFields ssnArrayPayload = ssnArrayPayload ∧
    containsSub "123-45-6789".data
      (stringifyJ (J.obj (redactSensitiveFields ssnArrayPayload))).data = true ∧
    redactSensitiveFields [("a", J.str "123-45-6789")]
      = [("a", J.str "[REDACTED:SSN]")] := by
  refine ⟨by decide, by decide, by decide, by decide⟩

/-- Claim C9 (counterevidence): each request's upsert resets the
window row to `request_count = 1` and the ceiling is compared against
that pre-reset read-back of 1, so with the configured ceiling of 1000
no sequence of same-window requests is ever rate-limited and the
stored count never exceeds 2. -/
theorem rate_limiter_never_fires :
    (∀ n row, (runRateRequests n row).2 = 0) ∧
    (∀ n row, (runRateRequests (n + 1) row).1 = some 2) ∧
    (rateLimitStep (some 1000)).2 = false := by
  have hsnd : ∀ n row, (runRateRequests n row).2 = 0 := by
    intro n
    induction n with
    | zero => intro row; rfl
    | succ n ih =>
      intro row
      simp only [runRateRequests, rateLimitStep, RATE_LIMIT_REQUESTS_PER_MINUTE]
      simp [ih]
  have hfst : ∀ n row, (runRateRequests (n + 1) row).1 = some 2 := by
    have aux : ∀ n, (runRateRequests n (some 2)).1 = some 2 := by
      intro n
      induction n with
      | zero => rfl
      | succ n ih =>
        simp only [runRateRequests, rateLimitStep]
        exact ih
    intro n row
    simp only [runRateRequests, rateLimitStep]
    exact aux n
  exact ⟨hsnd, hfst, by decide⟩

/-- Claim C5 (counterexample): the guard `"x >= -1"` matches the
spec's grammar (negative literal) and should compare `5 ≥ -1` (true),
but the code's regex has no `-?` and evaluates it to `false`; and the
guard `"1x <= 0"` is rejected by the spec's grammar (name must start
with a letter or underscore) yet the code's `\w+` accepts it and
evaluates it to `true`. -/
theorem guard_grammar_counterexample :
    specGuardEval "x >= -1" [("x", 5)] = true ∧
    evaluateGuard "x >= -1" [("x", 5)] = false ∧
    specGuardParse "1x <= 0".data = none ∧
    evaluateGuard "1x <= 0" [] = true := by
  refine ⟨by decide, by decide, by decide, by decide⟩

/-- Claim C8 (counterexample): the three evaluators are not
bit-identical — on an unknown tool under `defaultDecision = allow` the
hardened evaluator returns no reasons while the simulator returns one,
and on the counter-ceiling policy the hardened evaluator blocks while
the legacy runtime-check evaluator (which has no check 13) allows. -/
theorem evaluators_differ_counterexample :
    evaluateToolCall rtSkip allowAllPolicy "some_tool" none [] "initial" [] [] [] [] 0
      ≠ simulateToolCall rtSkip allowAllPolicy "some_tool" none [] "initial" [] [] [] [] 0 ∧
    (evaluateToolCall rtSkip ceilingPolicy "t" none [] "initial" [] [] [] [] 0).allowed
      = false ∧
    (evaluateToolCallRC rtSkip ceilingPolicy "t" none [] "initial" [] [] [] [] 0).allowed
      = true ∧
    (simulateToolCall rtSkip ceilingPolicy "t" none [] "initial" [] [] [] [] 0).allowed
      = true := by
  refine ⟨by decide, by decide, by decide, by decide⟩

theorem appendFails_nil (s : EvalSt) : appendFails s [] = s := by
  cases s with
  | mk a e rs ns nc nt => cases e <;> simp [appendFails, codeAfter]

theorem pushFail_eq_appendFails (s : EvalSt) (r : DecisionReason) :
    pushFail s r = appendFails s [r] := by
  cases s with
  | mk a e rs ns nc nt => cases e <;> simp [pushFail, appendFails, codeAfter, setCode]

theorem pushDeny_eq_appendFails (s : EvalSt) (r : DecisionReason)
    (h : s.errorCode = none) : pushDeny s r = appendFails s [r] := by
  cases s with
  | mk a e rs ns nc nt =>
    simp only [EvalSt.errorCode] at h
    subst h
    simp [pushDeny, appendFails, codeAfter]

theorem appendFails_append (s : EvalSt) (fs gs : List DecisionReason) :
    appendFails (appendFails s fs) gs = appendFails s (fs ++ gs) := by
  cases s with
  | mk a e rs ns nc nt =>
    cases fs with
    | nil => simp [appendFails_nil]
    | cons f fs' => cases e <;> simp [appendFails, codeAfter]

theorem forFailOpt_eq {α : Type} (mk : α → Option DecisionReason) (l : List α)
    (s : EvalSt) : forFailOpt mk l s = appendFails s (l.filterMap mk) := by
  induction l generalizing s with
  | nil => simp [forFailOpt, appendFails_nil]
  | cons x l ih =>
    simp only [forFailOpt, List.foldl_cons] at *
    cases hmk : mk x with
    | none => simp only [hmk, List.filterMap_cons]; exact ih s
    | some r =>
      simp only [hmk, List.filterMap_cons]
      rw [ih (pushFail s r), pushFail_eq_appendFails, appendFails_append]
      rfl

theorem checkRequiredState_eq (rule : ToolRule) (toolName currentState : String)
    (s : EvalSt) (h : s.errorCode = none) :
    checkRequiredState rule toolName currentState s
      = appendFails s (failsRequiredState rule toolName currentState) := by
  unfold checkRequiredState failsRequiredState
  split
  · exact pushDeny_eq_appendFails _ _ h
  · exact (appendFails_nil s).symm

theorem checkPrevTools_eq (rule : ToolRule) (toolName : String)
    (previousToolsCalled : List String) (s : EvalSt) :
    checkPrevTools rule toolName previousToolsCalled s
      = appendFails s (failsPrevTools rule toolName previousToolsCalled) := by
  unfold checkPrevTools failsPrevTools
  exact forFailOpt_eq _ _ _

theorem checkMaxCalls_eq (rule : ToolRule) (toolName : String)
    (toolCallCounts : List (String × Int)) (s : EvalSt) :
    checkMaxCalls rule toolName toolCallCounts s
      = appendFails s (failsMaxCalls rule toolName toolCallCounts) := by
  unfold checkMaxCalls failsMaxCalls
  cases rule.maxCallsPerSession with
  | none => exact (appendFails_nil s).symm
  | some m =>
    simp only
    split
    · exact pushFail_eq_appendFails _ _
    · exact (appendFails_nil s).symm

theorem checkCooldown_eq (rule : ToolRule) (toolName : String)
    (lastToolCallTimes : List (String × Int)) (timestamp : Int) (s : EvalSt) :
    checkCooldown rule toolName lastToolCallTimes timestamp s
      = appendFails s (failsCooldown rule toolName lastToolCallTimes timestamp) := by
  unfold checkCooldown failsCooldown
  cases rule.cooldownMs with
  | none => exact (appendFails_nil s).symm
  | some cd =>
    simp only
    cases recGet lastToolCallTimes toolName with
    | none => exact (appendFails_nil s).symm
    | some t =>
      simp only
      split
      · exact pushFail_eq_appendFails _ _
      · exact (appendFails_nil s).symm

theorem checkRequiredFields_eq (rule : ToolRule) (toolName : String)
    (payload : List (String × J)) (s : EvalSt) :
    checkRequiredFields rule toolName payload s
      = appendFails s (failsRequiredFields rule toolName payload) := by
  unfold checkRequiredFields failsRequiredFields
  exact forFailOpt_eq _ _ _

theorem checkForbiddenFields_eq (rule : ToolRule) (toolName : String)
    (payload : List (String × J)) (s : EvalSt) :
    checkForbiddenFields rule toolName payload s
      = appendFails s (failsForbiddenFields rule toolName payload) := by
  unfold checkForbiddenFields failsForbiddenFields
  exact forFailOpt_eq _ _ _

theorem checkDenyRegex_eq (rt : String → String → Option Bool) (rule : ToolRule)
    (toolName : String) (payload : List (String × J)) (s : EvalSt) :
    checkDenyRegex rt rule toolName payload s
      = appendFails s (failsDenyRegex rt rule toolName payload) := by
  unfold checkDenyRegex failsDenyRegex
  exact forFailOpt_eq _ _ _

theorem checkAllowRegex_eq (rt : String → String → Option Bool) (rule : ToolRule)
    (toolName : String) (payload : List (String × J)) (s : EvalSt) :
    checkAllowRegex rt rule toolName payload s
      = appendFails s (failsAllowRegex rt rule toolName payload) := by
  unfold checkAllowRegex failsAllowRegex
  exact forFailOpt_eq _ _ _

theorem checkCounterLimits_eq (policy : PolicySpec) (s : EvalSt) :
    checkCounterLimits policy s
      = appendFails s (failsCounterLimits policy s.newCounters) := by
  unfold checkCounterLimits failsCounterLimits
  exact forFailOpt_eq _ _ _

theorem checkStateMachine_not_allowed (policy : PolicySpec)
    (toolName currentState : String) (previousToolsCalled : List String)
    (s : EvalSt) (h : s.allowed = false) :
    checkStateMachine policy toolName currentState previousToolsCalled s = s := by
  unfold checkStateMachine
  rw [h]
  simp
theorem codeAfter_nil (e : Option String) : codeAfter e [] = e := by
  cases e <;> rfl

theorem transLoop_eq (tr : StateTransition) (prev : List String) (s : EvalSt) :
    forFailOpt (fun req =>
      if prev.contains req then none
      else some
        ⟨"REQUIRED_TOOLS_NOT_CALLED",
         "State transition requires \"" ++ req ++ "\" to be called first",
         some "stateMachine.transitions"⟩)
      (tr.requiresToolsCalledBefore.getD []) s
    = appendFails s (failsTransTools tr prev) := by
  unfold failsTransTools
  exact forFailOpt_eq _ _ _

theorem checkStateMachine_eq (policy : PolicySpec) (toolName currentState : String)
    (prev : List String) (s : EvalSt) (hall : s.allowed = true)
    (hns : s.newState = currentState) :
    checkStateMachine policy toolName currentState prev s
      = { allowed := (smBlockFails policy toolName currentState prev s.newCounters).isEmpty,
          errorCode := codeAfter s.errorCode
            (smBlockFails policy toolName currentState prev s.newCounters),
          reasons := s.reasons ++
            smBlockFails policy toolName currentState prev s.newCounters ++
            smInfoReasons policy toolName currentState prev s.newCounters,
          newState := refNewState policy toolName currentState prev s.newCounters,
          newCounters := refCountersAfterSm policy toolName currentState prev s.newCounters,
          newToolCallCounts := s.newToolCallCounts } := by
  obtain ⟨a, e, rs, ns, nc, nt⟩ := s
  simp only [EvalSt.allowed] at hall
  simp only [EvalSt.newState] at hns
  subst hall
  rw [← hns]
  simp only [EvalSt.newState, EvalSt.newCounters, EvalSt.errorCode, EvalSt.reasons,
    EvalSt.newToolCallCounts]
  unfold checkStateMachine smBlockFails smInfoReasons refNewState refCountersAfterSm
    transitionOf smApplied
  cases hsm : policy.stateMachine with
  | none =>
    cases e <;> simp [codeAfter]
  | some sm =>
    simp only [Option.some_bind]
    cases hfind : sm.transitions.find? (fun t =>
        t.triggeredByTool == toolName && t.fromState == ns) with
    | none =>
      cases e <;> simp [codeAfter]
    | some tr =>
      simp only [if_true]
      rw [transLoop_eq]
      cases hft : failsTransTools tr prev with
      | nil =>
        rw [appendFails_nil]
        by_cases hg : strTruthy tr.guard = true
        · by_cases hev : evaluateGuard (tr.guard.getD "") nc = true
          · simp [hg, hev, failsGuard, hft, codeAfter_nil]
          · simp only [Bool.not_eq_true] at hev
            simp [hg, hev, failsGuard, hft, pushFail, setCode, codeAfter_nil]
            cases e <;> simp [codeAfter, setCode]
        · simp only [Bool.not_eq_true] at hg
          simp [hg, failsGuard, hft, codeAfter_nil]
      | cons f fs =>
        simp [appendFails, failsGuard, hft, codeAfter]

theorem codeAfter_append (e : Option String) (l1 l2 : List DecisionReason) :
    codeAfter (codeAfter e l1) l2 = codeAfter e (l1 ++ l2) := by
  cases e with
  | some c => rfl
  | none =>
    cases l1 with
    | nil => rfl
    | cons f fs => rfl

theorem finalize_not_allowed (toolName : String) (s : EvalSt)
    (h : s.allowed = false) : finalizeEval toolName s = s := by
  unfold finalizeEval
  rw [h]
  simp
theorem checks4to11_eq (rt : String → String → Option Bool) (rule : ToolRule)
    (toolName : String) (payload : List (String × J)) (currentState : String)
    (prev : List String) (tcc ltt : List (String × Int)) (ts : Int) (s : EvalSt)
    (h : s.errorCode = none) :
    checkAllowRegex rt rule toolName payload
      (checkDenyRegex rt rule toolName payload
        (checkForbiddenFields rule toolName payload
          (checkRequiredFields rule toolName payload
            (checkCooldown rule toolName ltt ts
              (checkMaxCalls rule toolName tcc
                (checkPrevTools rule toolName prev
                  (checkRequiredState rule toolName currentState s)))))))
    = appendFails s (refBaseFails rt rule toolName payload currentState prev tcc ltt ts) := by
  rw [checkRequiredState_eq _ _ _ _ h, checkPrevTools_eq, checkMaxCalls_eq,
    checkCooldown_eq, checkRequiredFields_eq, checkForbiddenFields_eq,
    checkDenyRegex_eq, checkAllowRegex_eq]
  rw [appendFails_append, appendFails_append, appendFails_append,
    appendFails_append, appendFails_append, appendFails_append,
    appendFails_append]
  unfold refBaseFails
  simp [List.append_assoc]

theorem pipeline_closed (rt : String → String → Option Bool) (policy : PolicySpec)
    (rule : ToolRule) (toolName : String) (payload : List (String × J))
    (currentState : String) (prev : List String)
    (ctr tcc ltt : List (String × Int)) (ts : Int) :
    finalizeEval toolName
      (checkCounterLimits policy
        (coreChecks rt policy rule toolName payload currentState prev tcc ltt ts
          { allowed := true, errorCode := none, reasons := [],
            newState := currentState, newCounters := initCounters ctr policy,
            newToolCallCounts := tcc }))
    = (let w := initCounters ctr policy
       let base := refBaseFails rt rule toolName payload currentState prev tcc ltt ts
       let smB := if base.isEmpty then
           smBlockFails policy toolName currentState prev w else []
       let smI := if base.isEmpty then
           smInfoReasons policy toolName currentState prev w else []
       let wF := if base.isEmpty then
           refCountersAfterSm policy toolName currentState prev w else w
       let f13 := failsCounterLimits policy wF
       let allowedF := base.isEmpty && smB.isEmpty && f13.isEmpty
       let pre := base ++ smB ++ smI ++ f13
       { allowed := allowedF,
         errorCode := codeAfter none (base ++ smB ++ f13),
         reasons := if allowedF && pre.isEmpty then
             [⟨"ALLOWED", "All policy conditions satisfied", none⟩] else pre,
         newState := if base.isEmpty then
             refNewState policy toolName currentState prev w else currentState,
         newCounters := wF,
         newToolCallCounts := if allowedF then
             recSet tcc toolName (recGetD tcc toolName 0 + 1) else tcc }) := by
  unfold coreChecks
  rw [checks4to11_eq rt rule toolName payload currentState prev tcc ltt ts _ rfl]
  cases hbase : refBaseFails rt rule toolName payload currentState prev tcc ltt ts with
  | nil =>
    rw [appendFails_nil]
    rw [checkStateMachine_eq policy toolName currentState prev
      { allowed := true, errorCode := none, reasons := [], newState := currentState, newCounters := initCounters ctr policy, newToolCallCounts := tcc } rfl rfl]
    rw [checkCounterLimits_eq]
    simp only [EvalSt.newCounters, EvalSt.errorCode, EvalSt.reasons, EvalSt.allowed,
      EvalSt.newState, EvalSt.newToolCallCounts, appendFails, finalizeEval,
      List.isEmpty_nil, Bool.true_and, List.nil_append, codeAfter_append,
      codeAfter_nil]
    split_ifs <;> simp_all [List.isEmpty_iff, List.append_assoc, codeAfter_nil]
  | cons f fs =>
    have hna : (appendFails
        { allowed := true, errorCode := none, reasons := [],
          newState := currentState, newCounters := initCounters ctr policy,
          newToolCallCounts := tcc } (f :: fs)).allowed = false := by
      simp [appendFails]
    rw [checkStateMachine_not_allowed _ _ _ _ _ hna]
    rw [checkCounterLimits_eq]
    rw [appendFails_append]
    have hna2 : (appendFails
        { allowed := true, errorCode := none, reasons := [],
          newState := currentState, newCounters := initCounters ctr policy,
          newToolCallCounts := tcc }
        ((f :: fs) ++ failsCounterLimits policy
          (appendFails
            { allowed := true, errorCode := none, reasons := [],
              newState := currentState, newCounters := initCounters ctr policy,
              newToolCallCounts := tcc } (f :: fs)).newCounters)).allowed = false := by
      simp [appendFails]
    rw [finalize_not_allowed _ _ hna2]
    simp [appendFails, codeAfter, List.append_assoc]

theorem code_of_failsRequiredState (rule : ToolRule) (tn cs : String)
    (r : DecisionReason) (h : r ∈ failsRequiredState rule tn cs) :
    r.code = "REQUIRED_STATE_NOT_MET" := by
  unfold failsRequiredState at h
  split at h
  · rw [List.mem_singleton] at h
    rw [h]
  · cases h

theorem code_of_failsPrevTools (rule : ToolRule) (tn : String) (prev : List String)
    (r : DecisionReason) (h : r ∈ failsPrevTools rule tn prev) :
    r.code = "REQUIRED_TOOLS_NOT_CALLED" := by
  unfold failsPrevTools at h
  rw [List.mem_filterMap] at h
  obtain ⟨a, _, ha⟩ := h
  split at ha
  · cases ha
  · cases ha
    rfl

theorem code_of_failsMaxCalls (rule : ToolRule) (tn : String)
    (tcc : List (String × Int)) (r : DecisionReason)
    (h : r ∈ failsMaxCalls rule tn tcc) : r.code = "MAX_CALLS_EXCEEDED" := by
  unfold failsMaxCalls at h
  split at h
  · cases h
  · split at h
    · rw [List.mem_singleton] at h
      rw [h]
    · cases h

theorem code_of_failsCooldown (rule : ToolRule) (tn : String)
    (ltt : List (String × Int)) (ts : Int) (r : DecisionReason)
    (h : r ∈ failsCooldown rule tn ltt ts) : r.code = "COOLDOWN_ACTIVE" := by
  unfold failsCooldown at h
  split at h
  · cases h
  · split at h
    · cases h
    · split at h
      · rw [List.mem_singleton] at h
        rw [h]
      · cases h

theorem code_of_failsRequiredFields (rule : ToolRule) (tn : String)
    (payload : List (String × J)) (r : DecisionReason)
    (h : r ∈ failsRequiredFields rule tn payload) :
    r.code = "REQUIRED_FIELD_MISSING" := by
  unfold failsRequiredFields at h
  rw [List.mem_filterMap] at h
  obtain ⟨a, _, ha⟩ := h
  split at ha
  · cases ha
    rfl
  · cases ha

theorem code_of_failsForbiddenFields (rule : ToolRule) (tn : String)
    (payload : List (String × J)) (r : DecisionReason)
    (h : r ∈ failsForbiddenFields rule tn payload) :
    r.code = "FORBIDDEN_FIELD_PRESENT" := by
  unfold failsForbiddenFields at h
  rw [List.mem_filterMap] at h
  obtain ⟨a, _, ha⟩ := h
  split at ha
  · cases ha
    rfl
  · cases ha

theorem code_of_failsDenyRegex (rt : String → String → Option Bool)
    (rule : ToolRule) (tn : String) (payload : List (String × J))
    (r : DecisionReason) (h : r ∈ failsDenyRegex rt rule tn payload) :
    r.code = "REGEX_MATCH_DENIED" := by
  unfold failsDenyRegex at h
  rw [List.mem_filterMap] at h
  obtain ⟨a, _, ha⟩ := h
  split at ha
  · split at ha
    · cases ha
      rfl
    · cases ha
  · cases ha

theorem code_of_failsAllowRegex (rt : String → String → Option Bool)
    (rule : ToolRule) (tn : String) (payload : List (String × J))
    (r : DecisionReason) (h : r ∈ failsAllowRegex rt rule tn payload) :
    r.code = "REGEX_MATCH_REQUIRED" := by
  unfold failsAllowRegex at h
  rw [List.mem_filterMap] at h
  obtain ⟨a, _, ha⟩ := h
  split at ha
  · split at ha
    · cases ha
      rfl
    · cases ha
  · cases ha
    rfl

theorem code_of_failsTransTools (tr : StateTransition) (prev : List String)
    (r : DecisionReason) (h : r ∈ failsTransTools tr prev) :
    r.code = "REQUIRED_TOOLS_NOT_CALLED" := by
  unfold failsTransTools at h
  rw [List.mem_filterMap] at h
  obtain ⟨a, _, ha⟩ := h
  split at ha
  · cases ha
  · cases ha
    rfl

theorem code_of_failsGuard (tr : StateTransition) (prev : List String)
    (w : List (String × Int)) (r : DecisionReason)
    (h : r ∈ failsGuard tr prev w) : r.code = "GUARD_CONDITION_FAILED" := by
  unfold failsGuard at h
  split at h
  · rw [List.mem_singleton] at h
    rw [h]
  · cases h

theorem code_of_failsCounterLimits (policy : PolicySpec)
    (w : List (String × Int)) (r : DecisionReason)
    (h : r ∈ failsCounterLimits policy w) : r.code = "COUNTER_LIMIT_EXCEEDED" := by
  unfold failsCounterLimits at h
  rw [List.mem_filterMap] at h
  obtain ⟨a, _, ha⟩ := h
  split at ha
  · cases ha
  · split at ha
    · split at ha
      · cases ha
        rfl
      · cases ha
    · cases ha

theorem code_of_smBlockFails (policy : PolicySpec) (tn cs : String)
    (prev : List String) (w : List (String × Int)) (r : DecisionReason)
    (h : r ∈ smBlockFails policy tn cs prev w) :
    r.code = "REQUIRED_TOOLS_NOT_CALLED" ∨ r.code = "GUARD_CONDITION_FAILED" := by
  unfold smBlockFails at h
  split at h
  · cases h
  · rw [List.mem_append] at h
    cases h with
    | inl h => exact Or.inl (code_of_failsTransTools _ _ _ h)
    | inr h => exact Or.inr (code_of_failsGuard _ _ _ _ h)

theorem code_of_refBaseFails (rt : String → String → Option Bool)
    (rule : ToolRule) (tn : String) (payload : List (String × J)) (cs : String)
    (prev : List String) (tcc ltt : List (String × Int)) (ts : Int)
    (r : DecisionReason) (h : r ∈ refBaseFails rt rule tn payload cs prev tcc ltt ts) :
    r.code = "REQUIRED_STATE_NOT_MET" ∨ r.code = "REQUIRED_TOOLS_NOT_CALLED" ∨
    r.code = "MAX_CALLS_EXCEEDED" ∨ r.code = "COOLDOWN_ACTIVE" ∨
    r.code = "REQUIRED_FIELD_MISSING" ∨ r.code = "FORBIDDEN_FIELD_PRESENT" ∨
    r.code = "REGEX_MATCH_DENIED" ∨ r.code = "REGEX_MATCH_REQUIRED" := by
  unfold refBaseFails at h
  simp only [List.mem_append] at h
  rcases h with ((((((h | h) | h) | h) | h) | h) | h) | h
  · exact Or.inl (code_of_failsRequiredState _ _ _ _ h)
  · exact Or.inr (Or.inl (code_of_failsPrevTools _ _ _ _ h))
  · exact Or.inr (Or.inr (Or.inl (code_of_failsMaxCalls _ _ _ _ h)))
  · exact Or.inr (Or.inr (Or.inr (Or.inl (code_of_failsCooldown _ _ _ _ _ h))))
  · exact Or.inr (Or.inr (Or.inr (Or.inr (Or.inl
      (code_of_failsRequiredFields _ _ _ _ h)))))
  · exact Or.inr (Or.inr (Or.inr (Or.inr (Or.inr (Or.inl
      (code_of_failsForbiddenFields _ _ _ _ h))))))
  · exact Or.inr (Or.inr (Or.inr (Or.inr (Or.inr (Or.inr (Or.inl
      (code_of_failsDenyRegex _ _ _ _ _ h)))))))
  · exact Or.inr (Or.inr (Or.inr (Or.inr (Or.inr (Or.inr (Or.inr
      (code_of_failsAllowRegex _ _ _ _ _ h)))))))

theorem blocking_of_refBaseFails (rt : String → String → Option Bool)
    (rule : ToolRule) (tn : String) (payload : List (String × J)) (cs : String)
    (prev : List String) (tcc ltt : List (String × Int)) (ts : Int)
    (r : DecisionReason) (h : r ∈ refBaseFails rt rule tn payload cs prev tcc ltt ts) :
    isBlockingReason r = true := by
  rcases code_of_refBaseFails rt rule tn payload cs prev tcc ltt ts r h with
    hc | hc | hc | hc | hc | hc | hc | hc <;>
    simp [isBlockingReason, hc]

theorem blocking_of_smBlockFails (policy : PolicySpec) (tn cs : String)
    (prev : List String) (w : List (String × Int)) (r : DecisionReason)
    (h : r ∈ smBlockFails policy tn cs prev w) : isBlockingReason r = true := by
  rcases code_of_smBlockFails policy tn cs prev w r h with hc | hc <;>
    simp [isBlockingReason, hc]

theorem blocking_of_failsCounterLimits (policy : PolicySpec)
    (w : List (String × Int)) (r : DecisionReason)
    (h : r ∈ failsCounterLimits policy w) : isBlockingReason r = true := by
  have hc := code_of_failsCounterLimits policy w r h
  simp [isBlockingReason, hc]

theorem filter_smInfo (policy : PolicySpec) (tn cs : String)
    (prev : List String) (w : List (String × Int)) :
    (smInfoReasons policy tn cs prev w).filter isBlockingReason = [] := by
  unfold smInfoReasons
  split
  · rfl
  · split
    · simp [isBlockingReason]
    · rfl
theorem codeAfter_filter_ref (c : Bool) (base smB smI f13 : List DecisionReason)
    (hb : ∀ r ∈ base, isBlockingReason r = true)
    (hs : ∀ r ∈ smB, isBlockingReason r = true)
    (hf : ∀ r ∈ f13, isBlockingReason r = true)
    (hi : smI.filter isBlockingReason = [])
    (hc : c = true → base = [] ∧ smB = [] ∧ f13 = []) :
    codeAfter none ((base ++ smB) ++ f13)
      = codeAfter none (List.filter isBlockingReason
          (if c = true then [⟨"ALLOWED", "All policy conditions satisfied", none⟩]
           else ((base ++ smB) ++ smI) ++ f13)) := by
  cases c with
  | true =>
    obtain ⟨h1, h2, h3⟩ := hc rfl
    subst h1
    subst h2
    subst h3
    simp [isBlockingReason, codeAfter]
  | false =>
    simp only [Bool.false_eq_true, if_false]
    rw [List.filter_append, List.filter_append, List.filter_append,
      List.filter_eq_self.mpr hb, List.filter_eq_self.mpr hs,
      List.filter_eq_self.mpr hf, hi]
    simp

theorem evaluate_decomposed (rt : String → String → Option Bool)
    (policy : PolicySpec) (toolName : String) (actionType : Option String)
    (payload : List (String × J)) (currentState : String) (prev : List String)
    (ctr tcc ltt : List (String × Int)) (ts : Int) :
    (evaluateToolCall rt policy toolName actionType payload currentState prev
        ctr tcc ltt ts).reasons
      = refReasons rt policy toolName actionType payload currentState prev
          ctr tcc ltt ts ∧
    (evaluateToolCall rt policy toolName actionType payload currentState prev
        ctr tcc ltt ts).errorCode
      = codeAfter none ((refReasons rt policy toolName actionType payload
          currentState prev ctr tcc ltt ts).filter isBlockingReason) := by
  unfold evaluateToolCall evalCommonHead refReasons
  cases hfind : policy.toolRules.find? (fun r => r.toolName == toolName) with
  | none =>
    by_cases hdd : (policy.defaultDecision == "deny") = true
    · simp [hdd, pushDeny, codeAfter, isBlockingReason]
    · simp only [Bool.not_eq_true] at hdd
      simp [hdd, codeAfter]
  | some rule =>
    by_cases hde : (rule.effect == "deny") = true
    · simp [hde, pushDeny, codeAfter, isBlockingReason]
    · simp only [Bool.not_eq_true] at hde
      simp only [hde, Bool.false_eq_true, if_false]
      by_cases hgate : ((jsOrStr actionType rule.actionType == some "side_effect" ||
          jsOrStr actionType rule.actionType == some "write") &&
          rule.effect != "allow") = true
      · simp [hgate, pushDeny, codeAfter, isBlockingReason]
      · simp only [Bool.not_eq_true] at hgate
        simp only [hgate, Bool.false_eq_true, if_false]
        rw [pipeline_closed]
        simp only []
        constructor
        · trivial
        · apply codeAfter_filter_ref
          · exact blocking_of_refBaseFails rt rule toolName payload currentState
              prev tcc ltt ts
          · intro r hr
            split at hr
            · exact blocking_of_smBlockFails _ _ _ _ _ r hr
            · cases hr
          · exact blocking_of_failsCounterLimits _ _
          · split
            · exact filter_smInfo _ _ _ _ _
            · rfl
          · intro h
            simp only [Bool.and_eq_true] at h
            obtain ⟨⟨⟨hb, hs⟩, hf⟩, _⟩ := h
            refine ⟨List.isEmpty_iff.mp hb, ?_, List.isEmpty_iff.mp hf⟩
            rw [if_pos hb] at hs ⊢
            exact List.isEmpty_iff.mp hs

theorem codeAfter_ne (L : List DecisionReason) (c : String)
    (h : ∀ r ∈ L, r.code ≠ c) : codeAfter none L ≠ some c := by
  cases L with
  | nil => simp [codeAfter]
  | cons r rest =>
    simp only [codeAfter, List.head?_cons, Option.map_some]
    intro hcon
    exact h r (List.mem_cons_self r rest) (Option.some.inj hcon)

/-- Claim C3: for every evaluation, the reason list equals the ordered
reference decomposition of spec §4.2's checks 1-13 (every failing
check's reasons, in the normative order, with the informational
transition/`ALLOWED` entries at their defined points), and `errorCode`
is the code of the first blocking reason — i.e. of the first denying
check; in particular the §8 scenario-1 request for `refund_payment`
yields `REQUIRED_STATE_NOT_MET` with a reason chain that also contains
`REQUIRED_TOOLS_NOT_CALLED`, and leaves the state `initial`. -/
theorem evaluator_check_order_normative :
    (∀ (rt : String → String → Option Bool) (policy : PolicySpec)
      (toolName : String) (actionType : Option String)
      (payload : List (String × J)) (currentState : String)
      (prev : List String) (ctr tcc ltt : List (String × Int)) (ts : Int),
      (evaluateToolCall rt policy toolName actionType payload currentState prev
          ctr tcc ltt ts).reasons
        = refReasons rt policy toolName actionType payload currentState prev
            ctr tcc ltt ts ∧
      (evaluateToolCall rt policy toolName actionType payload currentState prev
          ctr tcc ltt ts).errorCode
        = ((refReasons rt policy toolName actionType payload currentState prev
            ctr tcc ltt ts).filter isBlockingReason).head?.map (fun r => r.code)) ∧
    ((evaluateToolCall rtSkip examplePolicy "refund_payment" none examplePayload
        "initial" [] [] [] [] 0).allowed = false ∧
     (evaluateToolCall rtSkip examplePolicy "refund_payment" none examplePayload
        "initial" [] [] [] [] 0).errorCode = some "REQUIRED_STATE_NOT_MET" ∧
     (evaluateToolCall rtSkip examplePolicy "refund_payment" none examplePayload
        "initial" [] [] [] [] 0).reasons.map (fun r => r.code)
        = ["REQUIRED_STATE_NOT_MET", "REQUIRED_TOOLS_NOT_CALLED"] ∧
     (evaluateToolCall rtSkip examplePolicy "refund_payment" none examplePayload
        "initial" [] [] [] [] 0).newState = "initial") := by
  constructor
  · intro rt policy toolName actionType payload currentState prev ctr tcc ltt ts
    exact evaluate_decomposed rt policy toolName actionType payload currentState
      prev ctr tcc ltt ts
  · refine ⟨by decide, by decide, by decide, by decide⟩

/-- Claim C10: when the matched rule's `effect` is the string `"allow"`
or `"deny"` (which the validator guarantees for published policies),
the hardened evaluator can never produce
`errorCode = SIDE_EFFECT_NOT_ALLOWED`: an explicit deny returns
terminally at check 2, and for an allow rule the side-effect gate's
condition `rule.effect !== 'allow'` is false, while no later check uses
that code. -/
theorem side_effect_gate_unreachable :
    ∀ (rt : String → String → Option Bool) (policy : PolicySpec)
      (toolName : String) (actionType : Option String)
      (payload : List (String × J)) (currentState : String)
      (prev : List String) (ctr tcc ltt : List (String × Int)) (ts : Int)
      (rule : ToolRule),
      policy.toolRules.find? (fun r => r.toolName == toolName) = some rule →
      rule.effect = "allow" ∨ rule.effect = "deny" →
      (evaluateToolCall rt policy toolName actionType payload currentState prev
          ctr tcc ltt ts).errorCode ≠ some "SIDE_EFFECT_NOT_ALLOWED" := by
  intro rt policy toolName actionType payload currentState prev ctr tcc ltt ts
    rule hfind heff
  obtain ⟨-, hec⟩ := evaluate_decomposed rt policy toolName actionType payload
    currentState prev ctr tcc ltt ts
  rw [hec]
  unfold refReasons
  split
  · rename_i heq
    rw [heq] at hfind
    cases hfind
  rename_i rule2 heq
  rw [heq] at hfind
  have hrule : rule2 = rule := Option.some.inj hfind
  subst hrule
  cases heff with
  | inr hd =>
    rw [hd]
    simp [isBlockingReason, codeAfter]
  | inl ha =>
    rw [ha]
    simp only [show (("allow" : String) == "deny") = false from rfl,
      Bool.false_eq_true, if_false,
      show (("allow" : String) != "allow") = false from rfl,
      Bool.and_false]
    rw [← codeAfter_filter_ref]
    · apply codeAfter_ne
      intro r hr
      simp only [List.mem_append] at hr
      rcases hr with (hr | hr) | hr
      · rcases code_of_refBaseFails rt _ toolName payload currentState prev tcc
          ltt ts r hr with hc | hc | hc | hc | hc | hc | hc | hc <;>
          simp [hc]
      · have hc2 : r.code = "REQUIRED_TOOLS_NOT_CALLED" ∨
            r.code = "GUARD_CONDITION_FAILED" := by
          split at hr
          · exact code_of_smBlockFails _ _ _ _ _ r hr
          · cases hr
        rcases hc2 with hc | hc <;> simp [hc]
      · have hc := code_of_failsCounterLimits _ _ r hr
        simp [hc]
    · exact blocking_of_refBaseFails rt _ toolName payload currentState prev
        tcc ltt ts
    · intro r hr
      split at hr
      · exact blocking_of_smBlockFails _ _ _ _ _ r hr
      · cases hr
    · exact blocking_of_failsCounterLimits _ _
    · split
      · exact filter_smInfo _ _ _ _ _
      · rfl
    · intro h
      simp only [Bool.and_eq_true] at h
      obtain ⟨⟨⟨hb, hs⟩, hf⟩, -⟩ := h
      refine ⟨List.isEmpty_iff.mp hb, ?_, List.isEmpty_iff.mp hf⟩
      rw [if_pos hb] at hs ⊢
      exact List.isEmpty_iff.mp hs

/-- Witness for `side_effect_gate_unreachable`: the `verify_identity`
rule of the example policy has effect `"allow"` and its evaluation's
error code is not `SIDE_EFFECT_NOT_ALLOWED`. -/
theorem side_effect_gate_unreachable_witness :
    examplePolicy.toolRules.find? (fun r => r.toolName == "verify_identity")
      = some { toolName := "verify_identity", effect := "allow",
               actionType := some "write" } ∧
    (evaluateToolCall rtSkip examplePolicy "verify_identity" none [] "initial"
        [] [] [] [] 0).errorCode ≠ some "SIDE_EFFECT_NOT_ALLOWED" :=
  ⟨by decide,
   side_effect_gate_unreachable rtSkip examplePolicy "verify_identity" none []
     "initial" [] [] [] [] 0
     { toolName := "verify_identity", effect := "allow",
       actionType := some "write" }
     (by decide) (Or.inl rfl)⟩

theorem checkCounterLimits_id (policy : PolicySpec) (s : EvalSt)
    (h : noCounterCeilings policy = true) : checkCounterLimits policy s = s := by
  rw [checkCounterLimits_eq]
  have hnil : failsCounterLimits policy s.newCounters = [] := by
    unfold failsCounterLimits
    rw [List.filterMap_eq_nil_iff]
    intro d hd
    unfold noCounterCeilings at h
    rw [List.all_eq_true] at h
    have := h d hd
    cases hm : d.maxValue with
    | none => rfl
    | some mv =>
      rw [hm] at this
      cases this
  rw [hnil, appendFails_nil]

theorem rc_eq_hardened (rt : String → String → Option Bool) (policy : PolicySpec)
    (toolName : String) (actionType : Option String)
    (payload : List (String × J)) (currentState : String) (prev : List String)
    (ctr tcc ltt : List (String × Int)) (ts : Int)
    (h : noCounterCeilings policy = true) :
    evaluateToolCallRC rt policy toolName actionType payload currentState prev
        ctr tcc ltt ts
      = evaluateToolCall rt policy toolName actionType payload currentState prev
          ctr tcc ltt ts := by
  unfold evaluateToolCallRC evaluateToolCall evalCommonHead
  cases hfind : policy.toolRules.find? (fun r => r.toolName == toolName) with
  | none => rfl
  | some rule =>
    by_cases hde : (rule.effect == "deny") = true
    · simp [hde]
    · simp only [Bool.not_eq_true] at hde
      simp only [hde, Bool.false_eq_true, if_false]
      by_cases hgate : ((jsOrStr actionType rule.actionType == some "side_effect" ||
          jsOrStr actionType rule.actionType == some "write") &&
          rule.effect != "allow") = true
      · simp [hgate]
      · simp only [Bool.not_eq_true] at hgate
        simp only [hgate, Bool.false_eq_true, if_false]
        rw [checkCounterLimits_id _ _ h]

theorem projEval_iff (s s' : EvalSt) :
    projEval s = projEval s' ↔
      s.allowed = s'.allowed ∧ s.errorCode = s'.errorCode ∧
      s.newState = s'.newState ∧ s.newCounters = s'.newCounters ∧
      s.newToolCallCounts = s'.newToolCallCounts := by
  simp [projEval, Prod.ext_iff]

theorem filterMap_map_code {α : Type} (mkA mkB : α → Option DecisionReason)
    (l : List α)
    (h : ∀ x, (mkA x).map (fun r => r.code) = (mkB x).map (fun r => r.code)) :
    (l.filterMap mkA).map (fun r => r.code)
      = (l.filterMap mkB).map (fun r => r.code) := by
  induction l with
  | nil => rfl
  | cons x l ih =>
    have hx := h x
    cases ha : mkA x with
    | none =>
      rw [ha] at hx
      cases hb : mkB x with
      | none => simp [List.filterMap_cons, ha, hb, ih]
      | some rb => rw [hb] at hx; cases hx
    | some ra =>
      rw [ha] at hx
      cases hb : mkB x with
      | none => rw [hb] at hx; cases hx
      | some rb =>
        rw [hb] at hx
        simp at hx
        simp [List.filterMap_cons, ha, hb, ih, hx]

theorem isEmpty_of_map_code (fsA fsB : List DecisionReason)
    (hc : fsA.map (fun r => r.code) = fsB.map (fun r => r.code)) :
    fsA.isEmpty = fsB.isEmpty := by
  cases fsA with
  | nil => cases fsB with
    | nil => rfl
    | cons b bs => cases hc
  | cons a as => cases fsB with
    | nil => cases hc
    | cons b bs => rfl

theorem proj_appendFails (s s' : EvalSt) (fsA fsB : List DecisionReason)
    (hp : projEval s = projEval s')
    (hc : fsA.map (fun r => r.code) = fsB.map (fun r => r.code)) :
    projEval (appendFails s fsA) = projEval (appendFails s' fsB) := by
  rw [projEval_iff] at hp ⊢
  obtain ⟨h1, h2, h3, h4, h5⟩ := hp
  refine ⟨?_, ?_, h3, h4, h5⟩
  · simp [appendFails, h1, isEmpty_of_map_code fsA fsB hc]
  · simp only [appendFails, h2]
    cases s'.errorCode with
    | some c => rfl
    | none =>
      simp only [codeAfter]
      rw [← List.head?_map, ← List.head?_map, hc]

theorem proj_simCheckDenyRegex (rt : String → String → Option Bool)
    (rule : ToolRule) (tn : String) (payload : List (String × J))
    (s s' : EvalSt) (hp : projEval s = projEval s') :
    projEval (simCheckDenyRegex rt rule tn payload s)
      = projEval (checkDenyRegex rt rule tn payload s') := by
  unfold simCheckDenyRegex checkDenyRegex
  rw [forFailOpt_eq, forFailOpt_eq]
  apply proj_appendFails _ _ _ _ hp
  apply filterMap_map_code
  intro c
  cases getJsonPathValue payload c.jsonPath with
  | none => rfl
  | some v =>
    cases v with
    | str vs =>
      cases hrt : rt c.pattern vs with
      | none => simp [hrt]
      | some b => cases b <;> simp [hrt]
    | null => rfl
    | bool b => rfl
    | num n => rfl
    | arr xs => rfl
    | obj fs => rfl

theorem proj_simCheckAllowRegex (rt : String → String → Option Bool)
    (rule : ToolRule) (tn : String) (payload : List (String × J))
    (s s' : EvalSt) (hp : projEval s = projEval s') :
    projEval (simCheckAllowRegex rt rule tn payload s)
      = projEval (checkAllowRegex rt rule tn payload s') := by
  unfold simCheckAllowRegex checkAllowRegex
  rw [forFailOpt_eq, forFailOpt_eq]
  apply proj_appendFails _ _ _ _ hp
  apply filterMap_map_code
  intro c
  cases getJsonPathValue payload c.jsonPath with
  | none => rfl
  | some v =>
    cases v with
    | str vs =>
      cases hrt : rt c.pattern vs with
      | none => simp [hrt]
      | some b => cases b <;> simp [hrt]
    | null => rfl
    | bool b => rfl
    | num n => rfl
    | arr xs => rfl
    | obj fs => rfl

theorem proj_pushFail (s s' : EvalSt) (rA rB : DecisionReason)
    (hp : projEval s = projEval s') (hc : rA.code = rB.code) :
    projEval (pushFail s rA) = projEval (pushFail s' rB) := by
  rw [pushFail_eq_appendFails, pushFail_eq_appendFails]
  apply proj_appendFails _ _ _ _ hp
  simp [hc]

theorem simCheckDenyRegex_eq (rt : String → String → Option Bool)
    (rule : ToolRule) (toolName : String) (payload : List (String × J))
    (s : EvalSt) :
    simCheckDenyRegex rt rule toolName payload s
      = appendFails s (simFailsDenyRegex rt rule toolName payload) := by
  unfold simCheckDenyRegex simFailsDenyRegex
  exact forFailOpt_eq _ _ _

theorem simCheckAllowRegex_eq (rt : String → String → Option Bool)
    (rule : ToolRule) (toolName : String) (payload : List (String × J))
    (s : EvalSt) :
    simCheckAllowRegex rt rule toolName payload s
      = appendFails s (simFailsAllowRegex rt rule toolName payload) := by
  unfold simCheckAllowRegex simFailsAllowRegex
  exact forFailOpt_eq _ _ _

theorem simTransLoop_eq (tr : StateTransition) (cs : String)
    (prev : List String) (s : EvalSt) :
    forFailOpt (fun req =>
      if prev.contains req then none
      else some
        ⟨"REQUIRED_TOOLS_NOT_CALLED",
         "State transition requires \"" ++ req ++ "\" to be called first",
         some ("stateMachine.transitions[" ++ cs ++ "->" ++ tr.toState ++ "]")⟩)
      (tr.requiresToolsCalledBefore.getD []) s
    = appendFails s (simFailsTransTools tr cs prev) := by
  unfold simFailsTransTools
  exact forFailOpt_eq _ _ _

theorem simCheckStateMachine_not_allowed (policy : PolicySpec)
    (toolName currentState : String) (previousToolsCalled : List String)
    (s : EvalSt) (h : s.allowed = false) :
    simCheckStateMachine policy toolName currentState previousToolsCalled s = s := by
  unfold simCheckStateMachine
  rw [h]
  simp

theorem simCheckStateMachine_eq (policy : PolicySpec)
    (toolName currentState : String) (prev : List String) (s : EvalSt)
    (hall : s.allowed = true) (hns : s.newState = currentState) :
    simCheckStateMachine policy toolName currentState prev s
      = { allowed := (simSmBlockFails policy toolName currentState prev s.newCounters).isEmpty,
          errorCode := codeAfter s.errorCode
            (simSmBlockFails policy toolName currentState prev s.newCounters),
          reasons := s.reasons ++
            simSmBlockFails policy toolName currentState prev s.newCounters ++
            simSmInfoReasons policy toolName currentState prev s.newCounters,
          newState := simRefNewState policy toolName currentState prev s.newCounters,
          newCounters := simRefCountersAfterSm policy toolName currentState prev s.newCounters,
          newToolCallCounts := s.newToolCallCounts } := by
  obtain ⟨a, e, rs, ns, nc, nt⟩ := s
  simp only [EvalSt.allowed] at hall
  simp only [EvalSt.newState] at hns
  subst hall
  rw [← hns]
  simp only [EvalSt.newState, EvalSt.newCounters, EvalSt.errorCode, EvalSt.reasons,
    EvalSt.newToolCallCounts]
  unfold simCheckStateMachine simSmBlockFails simSmInfoReasons simRefNewState
    simRefCountersAfterSm transitionOf simSmApplied
  cases hsm : policy.stateMachine with
  | none =>
    cases e <;> simp [codeAfter]
  | some sm =>
    simp only [Option.some_bind]
    cases hfind : sm.transitions.find? (fun t =>
        t.triggeredByTool == toolName && t.fromState == ns) with
    | none =>
      cases e <;> simp [codeAfter]
    | some tr =>
      simp only [if_true]
      rw [simTransLoop_eq]
      cases hft : simFailsTransTools tr ns prev with
      | nil =>
        rw [appendFails_nil]
        by_cases hg : strTruthy tr.guard = true
        · by_cases hev : evaluateGuard (tr.guard.getD "") nc = true
          · simp [hg, hev, simFailsGuard, hft, codeAfter_nil]
          · simp only [Bool.not_eq_true] at hev
            simp [hg, hev, simFailsGuard, hft, pushFail, setCode, codeAfter_nil]
            cases e <;> simp [codeAfter, setCode]
        · simp only [Bool.not_eq_true] at hg
          simp [hg, simFailsGuard, hft, codeAfter_nil]
      | cons f fs =>
        simp [appendFails, simFailsGuard, hft, codeAfter]

theorem simChecks4to11_eq (rt : String → String → Option Bool) (rule : ToolRule)
    (toolName : String) (payload : List (String × J)) (currentState : String)
    (prev : List String) (tcc ltt : List (String × Int)) (ts : Int) (s : EvalSt)
    (h : s.errorCode = none) :
    simCheckAllowRegex rt rule toolName payload
      (simCheckDenyRegex rt rule toolName payload
        (checkForbiddenFields rule toolName payload
          (checkRequiredFields rule toolName payload
            (checkCooldown rule toolName ltt ts
              (checkMaxCalls rule toolName tcc
                (checkPrevTools rule toolName prev
                  (checkRequiredState rule toolName currentState s)))))))
    = appendFails s (simBaseFails rt rule toolName payload currentState prev tcc ltt ts) := by
  rw [checkRequiredState_eq _ _ _ _ h, checkPrevTools_eq, checkMaxCalls_eq,
    checkCooldown_eq, checkRequiredFields_eq, checkForbiddenFields_eq,
    simCheckDenyRegex_eq, simCheckAllowRegex_eq]
  rw [appendFails_append, appendFails_append, appendFails_append,
    appendFails_append, appendFails_append, appendFails_append,
    appendFails_append]
  unfold simBaseFails
  simp [List.append_assoc]

theorem simPipeline_closed (rt : String → String → Option Bool)
    (policy : PolicySpec) (rule : ToolRule) (toolName : String)
    (payload : List (String × J)) (currentState : String) (prev : List String)
    (ctr tcc ltt : List (String × Int)) (ts : Int) :
    simFinalize toolName
      (simCheckStateMachine policy toolName currentState prev
        (simCheckAllowRegex rt rule toolName payload
          (simCheckDenyRegex rt rule toolName payload
            (checkForbiddenFields rule toolName payload
              (checkRequiredFields rule toolName payload
                (checkCooldown rule toolName ltt ts
                  (checkMaxCalls rule toolName tcc
                    (checkPrevTools rule toolName prev
                      (checkRequiredState rule toolName currentState
                        { allowed := true, errorCode := none, reasons := [],
                          newState := currentState,
                          newCounters := initCounters ctr policy,
                          newToolCallCounts := tcc })))))))))
    = (let w := initCounters ctr policy
       let base := simBaseFails rt rule toolName payload currentState prev tcc ltt ts
       let smB := if base.isEmpty then
           simSmBlockFails policy toolName currentState prev w else []
       let smI := if base.isEmpty then
           simSmInfoReasons policy toolName currentState prev w else []
       let allowedF := base.isEmpty && smB.isEmpty
       let pre := base ++ smB ++ smI
       { allowed := allowedF,
         errorCode := codeAfter none (base ++ smB),
         reasons := if allowedF && pre.isEmpty then
             [⟨"UNKNOWN_TOOL_DENIED", "All policy conditions satisfied", none⟩]
           else pre,
         newState := if base.isEmpty then
             simRefNewState policy toolName currentState prev w else currentState,
         newCounters := if base.isEmpty then
             simRefCountersAfterSm policy toolName currentState prev w else w,
         newToolCallCounts := if allowedF then
             recSet tcc toolName (recGetD tcc toolName 0 + 1) else tcc }) := by
  rw [simChecks4to11_eq rt rule toolName payload currentState prev tcc ltt ts _ rfl]
  cases hbase : simBaseFails rt rule toolName payload currentState prev tcc ltt ts with
  | nil =>
    rw [appendFails_nil]
    rw [simCheckStateMachine_eq policy toolName currentState prev
      { allowed := true, errorCode := none, reasons := [], newState := currentState, newCounters := initCounters ctr policy, newToolCallCounts := tcc } rfl rfl]
    simp only [EvalSt.newCounters, EvalSt.errorCode, EvalSt.reasons, EvalSt.allowed,
      EvalSt.newState, EvalSt.newToolCallCounts, appendFails, simFinalize,
      List.isEmpty_nil, Bool.true_and, List.nil_append, codeAfter_append,
      codeAfter_nil]
    split_ifs <;> simp_all [List.isEmpty_iff, List.append_assoc, codeAfter_nil]
  | cons f fs =>
    have hna : (appendFails
        { allowed := true, errorCode := none, reasons := [],
          newState := currentState, newCounters := initCounters ctr policy,
          newToolCallCounts := tcc } (f :: fs)).allowed = false := by
      simp [appendFails]
    rw [simCheckStateMachine_not_allowed _ _ _ _ _ hna]
    have hna2 : (appendFails
        { allowed := true, errorCode := none, reasons := [],
          newState := currentState, newCounters := initCounters ctr policy,
          newToolCallCounts := tcc } (f :: fs)).allowed = false := hna
    unfold simFinalize
    rw [hna2]
    simp [appendFails, codeAfter, List.append_assoc]

theorem failsCounterLimits_nil (policy : PolicySpec) (w : List (String × Int))
    (h : noCounterCeilings policy = true) : failsCounterLimits policy w = [] := by
  unfold failsCounterLimits
  rw [List.filterMap_eq_nil_iff]
  intro d hd
  unfold noCounterCeilings at h
  rw [List.all_eq_true] at h
  have hmv := h d hd
  cases hm : d.maxValue with
  | none => rfl
  | some mv =>
    rw [hm] at hmv
    cases hmv

theorem mapcode_simFailsDenyRegex (rt : String → String → Option Bool)
    (rule : ToolRule) (tn : String) (payload : List (String × J)) :
    (simFailsDenyRegex rt rule tn payload).map (fun r => r.code)
      = (failsDenyRegex rt rule tn payload).map (fun r => r.code) := by
  unfold simFailsDenyRegex failsDenyRegex
  apply filterMap_map_code
  intro c
  cases getJsonPathValue payload c.jsonPath with
  | none => rfl
  | some v =>
    cases v with
    | str vs =>
      cases hrt : rt c.pattern vs with
      | none => simp [hrt]
      | some b => cases b <;> simp [hrt]
    | null => rfl
    | bool b => rfl
    | num n => rfl
    | arr xs => rfl
    | obj fs => rfl

theorem mapcode_simFailsAllowRegex (rt : String → String → Option Bool)
    (rule : ToolRule) (tn : String) (payload : List (String × J)) :
    (simFailsAllowRegex rt rule tn payload).map (fun r => r.code)
      = (failsAllowRegex rt rule tn payload).map (fun r => r.code) := by
  unfold simFailsAllowRegex failsAllowRegex
  apply filterMap_map_code
  intro c
  cases getJsonPathValue payload c.jsonPath with
  | none => rfl
  | some v =>
    cases v with
    | str vs =>
      cases hrt : rt c.pattern vs with
      | none => simp [hrt]
      | some b => cases b <;> simp [hrt]
    | null => rfl
    | bool b => rfl
    | num n => rfl
    | arr xs => rfl
    | obj fs => rfl

theorem mapcode_simFailsTransTools (tr : StateTransition) (cs : String)
    (prev : List String) :
    (simFailsTransTools tr cs prev).map (fun r => r.code)
      = (failsTransTools tr prev).map (fun r => r.code) := by
  unfold simFailsTransTools failsTransTools
  apply filterMap_map_code
  intro req
  split <;> rfl

theorem mapcode_simBaseFails (rt : String → String → Option Bool)
    (rule : ToolRule) (tn : String) (payload : List (String × J)) (cs : String)
    (prev : List String) (tcc ltt : List (String × Int)) (ts : Int) :
    (simBaseFails rt rule tn payload cs prev tcc ltt ts).map (fun r => r.code)
      = (refBaseFails rt rule tn payload cs prev tcc ltt ts).map (fun r => r.code) := by
  unfold simBaseFails refBaseFails
  simp only [List.map_append, mapcode_simFailsDenyRegex, mapcode_simFailsAllowRegex]

theorem isEmpty_simFailsTransTools (tr : StateTransition) (cs : String)
    (prev : List String) :
    (simFailsTransTools tr cs prev).isEmpty = (failsTransTools tr prev).isEmpty :=
  isEmpty_of_map_code _ _ (mapcode_simFailsTransTools tr cs prev)

theorem mapcode_simFailsGuard (tr : StateTransition) (cs : String)
    (prev : List String) (w : List (String × Int)) :
    (simFailsGuard tr cs prev w).map (fun r => r.code)
      = (failsGuard tr prev w).map (fun r => r.code) := by
  unfold simFailsGuard failsGuard
  rw [isEmpty_simFailsTransTools]
  split <;> rfl

theorem simSmApplied_eq (tr : StateTransition) (cs : String)
    (prev : List String) (w : List (String × Int)) :
    simSmApplied tr cs prev w = smApplied tr prev w := by
  unfold simSmApplied smApplied
  rw [isEmpty_simFailsTransTools,
    isEmpty_of_map_code _ _ (mapcode_simFailsGuard tr cs prev w)]

theorem mapcode_simSmBlockFails (policy : PolicySpec) (tn cs : String)
    (prev : List String) (w : List (String × Int)) :
    (simSmBlockFails policy tn cs prev w).map (fun r => r.code)
      = (smBlockFails policy tn cs prev w).map (fun r => r.code) := by
  unfold simSmBlockFails smBlockFails
  cases transitionOf policy tn cs with
  | none => rfl
  | some tr =>
    simp only [List.map_append, mapcode_simFailsTransTools, mapcode_simFailsGuard]

theorem simRefNewState_eq (policy : PolicySpec) (tn cs : String)
    (prev : List String) (w : List (String × Int)) :
    simRefNewState policy tn cs prev w = refNewState policy tn cs prev w := by
  unfold simRefNewState refNewState
  cases transitionOf policy tn cs with
  | none => rfl
  | some tr => simp only [simSmApplied_eq]

theorem simRefCountersAfterSm_eq (policy : PolicySpec) (tn cs : String)
    (prev : List String) (w : List (String × Int)) :
    simRefCountersAfterSm policy tn cs prev w
      = refCountersAfterSm policy tn cs prev w := by
  unfold simRefCountersAfterSm refCountersAfterSm
  cases transitionOf policy tn cs with
  | none => rfl
  | some tr => simp only [simSmApplied_eq]

theorem proj_components (aA aB : Bool) (eA eB : Option String)
    (rA rB : List DecisionReason) (nA nB : String)
    (cA cB tA tB : List (String × Int))
    (h1 : aA = aB) (h2 : eA = eB) (h3 : nA = nB) (h4 : cA = cB) (h5 : tA = tB) :
    projEval ⟨aA, eA, rA, nA, cA, tA⟩ = projEval ⟨aB, eB, rB, nB, cB, tB⟩ := by
  simp [projEval, h1, h2, h3, h4, h5]

theorem codeAfter_none_map (l : List DecisionReason) :
    codeAfter none l = (l.map (fun r => r.code)).head? := by
  unfold codeAfter
  rw [List.head?_map]
/-- Claim C8 (amended): on every input whose policy declares no counter
ceiling, the runtime-check `evaluateToolCall` returns a result identical
to the hardened `evaluateToolCall` in all six fields, and
`simulateToolCall` agrees with the hardened evaluator on `allowed`,
`errorCode`, `newState`, `newCounters` and `newToolCallCounts` (the
reason lists differ only in wording and informational entries). -/
theorem evaluators_agree_without_ceilings (rt : String → String → Option Bool)
    (policy : PolicySpec) (toolName : String) (actionType : Option String)
    (payload : List (String × J)) (currentState : String) (prev : List String)
    (ctr tcc ltt : List (String × Int)) (ts : Int)
    (h : noCounterCeilings policy = true) :
    evaluateToolCallRC rt policy toolName actionType payload currentState prev
        ctr tcc ltt ts
      = evaluateToolCall rt policy toolName actionType payload currentState prev
          ctr tcc ltt ts
    ∧ projEval (simulateToolCall rt policy toolName actionType payload
          currentState prev ctr tcc ltt ts)
      = projEval (evaluateToolCall rt policy toolName actionType payload
          currentState prev ctr tcc ltt ts) := by
  refine ⟨rc_eq_hardened rt policy toolName actionType payload currentState prev
    ctr tcc ltt ts h, ?_⟩
  unfold simulateToolCall evaluateToolCall evalCommonHead
  cases hfind : policy.toolRules.find? (fun r => r.toolName == toolName) with
  | none =>
    by_cases hdd : (policy.defaultDecision == "deny") = true
    · simp [hdd]
    · simp only [Bool.not_eq_true] at hdd
      simp only [hdd, Bool.false_eq_true, if_false]
      simp [projEval]
  | some rule =>
    by_cases hde : (rule.effect == "deny") = true
    · simp [hde]
    · simp only [Bool.not_eq_true] at hde
      simp only [hde, Bool.false_eq_true, if_false]
      by_cases hgate : ((jsOrStr actionType rule.actionType == some "side_effect" ||
          jsOrStr actionType rule.actionType == some "write") &&
          rule.effect != "allow") = true
      · simp [hgate]
      · simp only [Bool.not_eq_true] at hgate
        simp only [hgate, Bool.false_eq_true, if_false]
        rw [simPipeline_closed rt policy rule toolName payload currentState prev
          ctr tcc ltt ts]
        rw [pipeline_closed rt policy rule toolName payload currentState prev
          ctr tcc ltt ts]
        have hbe : (simBaseFails rt rule toolName payload currentState prev tcc
              ltt ts).isEmpty
            = (refBaseFails rt rule toolName payload currentState prev tcc
              ltt ts).isEmpty :=
          isEmpty_of_map_code _ _
            (mapcode_simBaseFails rt rule toolName payload currentState prev
              tcc ltt ts)
        have hsme : ∀ w : List (String × Int),
            (simSmBlockFails policy toolName currentState prev w).isEmpty
              = (smBlockFails policy toolName currentState prev w).isEmpty :=
          fun w => isEmpty_of_map_code _ _
            (mapcode_simSmBlockFails policy toolName currentState prev w)
        rw [projEval_iff]
        refine ⟨?_, ?_, ?_, ?_, ?_⟩ <;>
          simp only [EvalSt.allowed, EvalSt.errorCode, EvalSt.newState,
            EvalSt.newCounters, EvalSt.newToolCallCounts]
        · rw [hbe, failsCounterLimits_nil policy _ h]
          simp only [List.isEmpty_nil, Bool.and_true]
          by_cases hb : (refBaseFails rt rule toolName payload currentState prev
              tcc ltt ts).isEmpty = true
          · simp [hb, hsme]
          · simp [hb]
        · rw [hbe, failsCounterLimits_nil policy _ h, List.append_nil]
          rw [codeAfter_none_map, codeAfter_none_map]
          congr 1
          rw [List.map_append, List.map_append,
            mapcode_simBaseFails rt rule toolName payload currentState prev
              tcc ltt ts]
          congr 1
          by_cases hb : (refBaseFails rt rule toolName payload currentState prev
              tcc ltt ts).isEmpty = true
          · simp [hb, mapcode_simSmBlockFails]
          · simp [hb]
        · rw [hbe]
          simp only [simRefNewState_eq]
        · rw [hbe]
          simp only [simRefCountersAfterSm_eq]
        · rw [hbe, failsCounterLimits_nil policy _ h]
          simp only [List.isEmpty_nil, Bool.and_true]
          by_cases hb : (refBaseFails rt rule toolName payload currentState prev
              tcc ltt ts).isEmpty = true
          · simp [hb, hsme]
          · simp [hb]

theorem evaluators_agree_without_ceilings_witness :
    noCounterCeilings examplePolicy = true
    ∧ (evaluateToolCallRC rtSkip examplePolicy "verify_identity" none []
          "initial" [] [] [] [] 0
        = evaluateToolCall rtSkip examplePolicy "verify_identity" none []
          "initial" [] [] [] [] 0
      ∧ projEval (simulateToolCall rtSkip examplePolicy "verify_identity" none []
          "initial" [] [] [] [] 0)
        = projEval (evaluateToolCall rtSkip examplePolicy "verify_identity" none []
          "initial" [] [] [] [] 0)) :=
  ⟨by decide,
   evaluators_agree_without_ceilings rtSkip examplePolicy "verify_identity" none
     [] "initial" [] [] [] [] 0 (by decide)⟩

theorem space_cases (c : Char) (h : isSpaceJS c = true) :
    c = ' ' ∨ c = '\t' ∨ c = '\n' ∨ c = '\r' ∨ c = '\x0b' ∨ c = '\x0c' := by
  unfold isSpaceJS at h
  simp only [Bool.or_eq_true, beq_iff_eq] at h
  tauto

theorem space_not_word (c : Char) (h : isSpaceJS c = true) :
    isWordCharJS c = false := by
  rcases space_cases c h with rfl | rfl | rfl | rfl | rfl | rfl <;> decide

theorem word_not_space (c : Char) (h : isWordCharJS c = true) :
    isSpaceJS c = false := by
  cases hs : isSpaceJS c with
  | false => rfl
  | true => rw [space_not_word c hs] at h; cases h

theorem digit_word (c : Char) (h : isDigitChar c = true) :
    isWordCharJS c = true := by
  unfold isDigitChar at h
  unfold isWordCharJS
  rw [h]
  simp

theorem digit_not_space (c : Char) (h : isDigitChar c = true) :
    isSpaceJS c = false :=
  word_not_space c (digit_word c h)

theorem space_ne_eqch (c : Char) (h : isSpaceJS c = true) : c ≠ '=' := by
  rcases space_cases c h with rfl | rfl | rfl | rfl | rfl | rfl <;> decide

theorem digit_ne_eqch (c : Char) (h : isDigitChar c = true) : c ≠ '=' := by
  intro he
  subst he
  exact absurd h (by decide)

theorem span_eq (p : Char → Bool) (l : List Char) :
    l.span p = (l.takeWhile p, l.dropWhile p) := @List.span_eq_take_drop _ p l

theorem head?_mem {α : Type} (l : List α) (c : α) (h : l.head? = some c) :
    c ∈ l := by
  cases l with
  | nil => cases h
  | cons x t =>
    injection h with h1
    rw [← h1]
    exact List.mem_cons_self x t

theorem takeWhile_all_append (p : Char → Bool) (xs rest : List Char)
    (hxs : ∀ c ∈ xs, p c = true)
    (hrest : ∀ c, rest.head? = some c → p c = false) :
    (xs ++ rest).takeWhile p = xs := by
  induction xs with
  | nil =>
    cases rest with
    | nil => rfl
    | cons r t =>
      simp [List.takeWhile_cons, hrest r rfl]
  | cons x t ih =>
    simp only [List.cons_append, List.takeWhile_cons,
      hxs x (List.mem_cons_self x t), if_true]
    rw [ih (fun c hc => hxs c (List.mem_cons_of_mem x hc))]

theorem dropWhile_all_append (p : Char → Bool) (xs rest : List Char)
    (hxs : ∀ c ∈ xs, p c = true) :
    (xs ++ rest).dropWhile p = rest.dropWhile p := by
  induction xs with
  | nil => rfl
  | cons x t ih =>
    simp only [List.cons_append, List.dropWhile_cons,
      hxs x (List.mem_cons_self x t), if_true]
    exact ih (fun c hc => hxs c (List.mem_cons_of_mem x hc))

theorem dropWhile_head_false (p : Char → Bool) (l : List Char)
    (h : ∀ c, l.head? = some c → p c = false) : l.dropWhile p = l := by
  cases l with
  | nil => rfl
  | cons x t => simp [List.dropWhile_cons, h x rfl]

theorem takeWhile_all (p : Char → Bool) (l : List Char)
    (h : ∀ c ∈ l, p c = true) : l.takeWhile p = l := by
  induction l with
  | nil => rfl
  | cons x t ih =>
    simp only [List.takeWhile_cons, h x (List.mem_cons_self x t), if_true]
    rw [ih (fun c hc => h c (List.mem_cons_of_mem x hc))]

theorem dropWhile_all (p : Char → Bool) (l : List Char)
    (h : ∀ c ∈ l, p c = true) : l.dropWhile p = [] := by
  induction l with
  | nil => rfl
  | cons x t ih =>
    simp only [List.dropWhile_cons, h x (List.mem_cons_self x t), if_true]
    exact ih (fun c hc => h c (List.mem_cons_of_mem x hc))

theorem head?_append_of_ne_nil (l l' : List Char) (h : l ≠ []) :
    (l ++ l').head? = l.head? := by
  cases l with
  | nil => exact absurd rfl h
  | cons x t => rfl

theorem trimJS_decomp (ws1 core ws4 : List Char)
    (h1 : ∀ c ∈ ws1, isSpaceJS c = true) (h4 : ∀ c ∈ ws4, isSpaceJS c = true)
    (hne : core ≠ [])
    (hhd : ∀ c, core.head? = some c → isSpaceJS c = false)
    (hlast : ∀ c, core.reverse.head? = some c → isSpaceJS c = false) :
    trimJS (ws1 ++ core ++ ws4) = core := by
  unfold trimJS
  rw [List.append_assoc, dropWhile_all_append _ _ _ h1]
  rw [dropWhile_head_false isSpaceJS (core ++ ws4) (fun c hc => by
    rw [head?_append_of_ne_nil _ _ hne] at hc
    exact hhd c hc)]
  rw [List.reverse_append]
  rw [dropWhile_all_append _ ws4.reverse _
    (fun c hc => h4 c (List.mem_reverse.mp hc))]
  rw [dropWhile_head_false isSpaceJS core.reverse hlast]
  exact List.reverse_reverse core

theorem parseOp_opChars (op : GuardOp) (rest : List Char)
    (hne : ∀ c, rest.head? = some c → c ≠ '=') :
    parseOp (opChars op ++ rest) = some (op, rest) := by
  cases op with
  | le => rfl
  | ge => rfl
  | eqOp => rfl
  | neOp => rfl
  | lt =>
    cases rest with
    | nil => rfl
    | cons r t =>
      show parseOp ('<' :: r :: t) = some (GuardOp.lt, r :: t)
      have hr : r ≠ '=' := hne r rfl
      unfold parseOp
      split
      · rename_i heq
        injection heq with h1 h2
        injection h2 with h3 h4
        exact absurd h3 hr
      · rename_i heq
        injection heq with h1 h2
        subst h2
        rfl
      · rename_i heq
        injection heq with h1 h2
        exact absurd h1 (by decide)
      · rename_i heq
        injection heq with h1 h2
        exact absurd h1 (by decide)
      · rename_i heq
        injection heq with h1 h2
        exact absurd h1 (by decide)
      · rename_i heq
        injection heq with h1 h2
        exact absurd h1 (by decide)
      · rename_i a b c d e f
        exact absurd rfl (b (r :: t))
  | gt =>
    cases rest with
    | nil => rfl
    | cons r t =>
      show parseOp ('>' :: r :: t) = some (GuardOp.gt, r :: t)
      have hr : r ≠ '=' := hne r rfl
      unfold parseOp
      split
      · rename_i heq
        injection heq with h1 h2
        exact absurd h1 (by decide)
      · rename_i heq
        injection heq with h1 h2
        exact absurd h1 (by decide)
      · rename_i heq
        injection heq with h1 h2
        injection h2 with h3 h4
        exact absurd h3 hr
      · rename_i heq
        injection heq with h1 h2
        subst h2
        rfl
      · rename_i heq
        injection heq with h1 h2
        exact absurd h1 (by decide)
      · rename_i heq
        injection heq with h1 h2
        exact absurd h1 (by decide)
      · rename_i a b c d e f
        exact absurd rfl (d (r :: t))

theorem parseOp_sound (l : List Char) (op : GuardOp) (rest : List Char)
    (h : parseOp l = some (op, rest)) : l = opChars op ++ rest := by
  unfold parseOp at h
  split at h <;> first
    | (injection h with h1; injection h1 with h2 h3; subst h2; subst h3; rfl)
    | cases h

theorem opChars_ne_nil (op : GuardOp) : opChars op ≠ [] := by
  cases op <;> simp [opChars]

theorem opChars_head_not_word (op : GuardOp) (c : Char)
    (h : (opChars op).head? = some c) : isWordCharJS c = false := by
  cases op <;> (injection h with h1; rw [← h1]; decide)

theorem opChars_head_not_space (op : GuardOp) (c : Char)
    (h : (opChars op).head? = some c) : isSpaceJS c = false := by
  cases op <;> (injection h with h1; rw [← h1]; decide)

theorem guardMatch_build (name ws2 : List Char) (op : GuardOp) (ws3 ds : List Char)
    (hname : name ≠ []) (hnw : ∀ c ∈ name, isWordCharJS c = true)
    (h2 : ∀ c ∈ ws2, isSpaceJS c = true) (h3 : ∀ c ∈ ws3, isSpaceJS c = true)
    (hds : ds ≠ []) (hdd : ∀ c ∈ ds, isDigitChar c = true) :
    guardMatch (name ++ ws2 ++ opChars op ++ ws3 ++ ds)
      = some (String.mk name, op, digitsToNat ds) := by
  have hassoc : name ++ ws2 ++ opChars op ++ ws3 ++ ds
      = name ++ (ws2 ++ (opChars op ++ (ws3 ++ ds))) := by
    simp [List.append_assoc]
  rw [hassoc]
  have hrhead : ∀ c, (ws2 ++ (opChars op ++ (ws3 ++ ds))).head? = some c →
      isWordCharJS c = false := by
    intro c hc
    cases ws2 with
    | cons w t =>
      injection hc with h1
      rw [← h1]
      exact space_not_word w (h2 w (List.mem_cons_self w t))
    | nil =>
      rw [List.nil_append,
        head?_append_of_ne_nil _ _ (opChars_ne_nil op)] at hc
      exact opChars_head_not_word op c hc
  have hne3 : ∀ c, (ws3 ++ ds).head? = some c → c ≠ '=' := by
    intro c hc
    cases ws3 with
    | cons w t =>
      injection hc with h1
      rw [← h1]
      exact space_ne_eqch w (h3 w (List.mem_cons_self w t))
    | nil =>
      rw [List.nil_append] at hc
      exact digit_ne_eqch c (hdd c (head?_mem ds c hc))
  have e1 : (name ++ (ws2 ++ (opChars op ++ (ws3 ++ ds)))).takeWhile isWordCharJS
      = name := takeWhile_all_append isWordCharJS name _ hnw hrhead
  have e2 : (name ++ (ws2 ++ (opChars op ++ (ws3 ++ ds)))).dropWhile isWordCharJS
      = ws2 ++ (opChars op ++ (ws3 ++ ds)) := by
    rw [dropWhile_all_append _ _ _ hnw]
    exact dropWhile_head_false _ _ hrhead
  have e3 : (ws2 ++ (opChars op ++ (ws3 ++ ds))).dropWhile isSpaceJS
      = opChars op ++ (ws3 ++ ds) := by
    rw [dropWhile_all_append _ _ _ h2]
    apply dropWhile_head_false
    intro c hc
    rw [head?_append_of_ne_nil _ _ (opChars_ne_nil op)] at hc
    exact opChars_head_not_space op c hc
  have e4 : parseOp (opChars op ++ (ws3 ++ ds)) = some (op, ws3 ++ ds) :=
    parseOp_opChars op _ hne3
  have e5 : (ws3 ++ ds).dropWhile isSpaceJS = ds := by
    rw [dropWhile_all_append _ _ _ h3]
    apply dropWhile_head_false
    intro c hc
    exact digit_not_space c (hdd c (head?_mem ds c hc))
  have e6 : ds.takeWhile isDigitChar = ds := takeWhile_all _ _ hdd
  have e7 : ds.dropWhile isDigitChar = [] := dropWhile_all _ _ hdd
  have hnameE : name.isEmpty = false := by
    cases name with
    | nil => exact absurd rfl hname
    | cons x t => rfl
  have hdsE : ds.isEmpty = false := by
    cases ds with
    | nil => exact absurd rfl hds
    | cons x t => rfl
  unfold guardMatch
  simp only [span_eq, e1, e2, e3, e4, e5, e6, e7, hnameE, Bool.false_eq_true,
    if_false, hdsE, List.isEmpty_nil, if_true]

theorem guardMatch_neg (name ws2 : List Char) (op : GuardOp) (ws3 ds : List Char)
    (hname : name ≠ []) (hnw : ∀ c ∈ name, isWordCharJS c = true)
    (h2 : ∀ c ∈ ws2, isSpaceJS c = true) (h3 : ∀ c ∈ ws3, isSpaceJS c = true)
    (hdd : ∀ c ∈ ds, isDigitChar c = true) :
    guardMatch (name ++ ws2 ++ opChars op ++ ws3 ++ ('-' :: ds)) = none := by
  have hassoc : name ++ ws2 ++ opChars op ++ ws3 ++ ('-' :: ds)
      = name ++ (ws2 ++ (opChars op ++ (ws3 ++ ('-' :: ds)))) := by
    simp [List.append_assoc]
  rw [hassoc]
  have hrhead : ∀ c, (ws2 ++ (opChars op ++ (ws3 ++ ('-' :: ds)))).head? = some c →
      isWordCharJS c = false := by
    intro c hc
    cases ws2 with
    | cons w t =>
      injection hc with h1
      rw [← h1]
      exact space_not_word w (h2 w (List.mem_cons_self w t))
    | nil =>
      rw [List.nil_append,
        head?_append_of_ne_nil _ _ (opChars_ne_nil op)] at hc
      exact opChars_head_not_word op c hc
  have hne3 : ∀ c, (ws3 ++ ('-' :: ds)).head? = some c → c ≠ '=' := by
    intro c hc
    cases ws3 with
    | cons w t =>
      injection hc with h1
      rw [← h1]
      exact space_ne_eqch w (h3 w (List.mem_cons_self w t))
    | nil =>
      injection hc with h1
      rw [← h1]
      decide
  have e1 : (name ++ (ws2 ++ (opChars op ++ (ws3 ++ ('-' :: ds))))).takeWhile
      isWordCharJS = name := takeWhile_all_append isWordCharJS name _ hnw hrhead
  have e2 : (name ++ (ws2 ++ (opChars op ++ (ws3 ++ ('-' :: ds))))).dropWhile
      isWordCharJS = ws2 ++ (opChars op ++ (ws3 ++ ('-' :: ds))) := by
    rw [dropWhile_all_append _ _ _ hnw]
    exact dropWhile_head_false _ _ hrhead
  have e3 : (ws2 ++ (opChars op ++ (ws3 ++ ('-' :: ds)))).dropWhile isSpaceJS
      = opChars op ++ (ws3 ++ ('-' :: ds)) := by
    rw [dropWhile_all_append _ _ _ h2]
    apply dropWhile_head_false
    intro c hc
    rw [head?_append_of_ne_nil _ _ (opChars_ne_nil op)] at hc
    exact opChars_head_not_space op c hc
  have e4 : parseOp (opChars op ++ (ws3 ++ ('-' :: ds)))
      = some (op, ws3 ++ ('-' :: ds)) := parseOp_opChars op _ hne3
  have e5 : (ws3 ++ ('-' :: ds)).dropWhile isSpaceJS = '-' :: ds := by
    rw [dropWhile_all_append _ _ _ h3]
    apply dropWhile_head_false
    intro c hc
    injection hc with h1
    rw [← h1]
    decide
  have e6 : ('-' :: ds).takeWhile isDigitChar = [] := by
    simp [List.takeWhile_cons]
    decide
  have hnameE : name.isEmpty = false := by
    cases name with
    | nil => exact absurd rfl hname
    | cons x t => rfl
  unfold guardMatch
  simp only [span_eq, e1, e2, e3, e4, e5, e6, hnameE, Bool.false_eq_true,
    if_false, List.isEmpty_nil, if_true]

theorem trim_exists (l : List Char) :
    ∃ ws1 ws4, l = ws1 ++ trimJS l ++ ws4
      ∧ (∀ c ∈ ws1, isSpaceJS c = true) ∧ (∀ c ∈ ws4, isSpaceJS c = true) := by
  refine ⟨l.takeWhile isSpaceJS,
    ((l.dropWhile isSpaceJS).reverse.takeWhile isSpaceJS).reverse, ?_, ?_, ?_⟩
  · unfold trimJS
    conv_lhs => rw [← List.takeWhile_append_dropWhile isSpaceJS l]
    rw [List.append_assoc]
    congr 1
    conv_lhs => rw [← List.reverse_reverse (l.dropWhile isSpaceJS)]
    conv_lhs =>
      rw [← List.takeWhile_append_dropWhile isSpaceJS
        (l.dropWhile isSpaceJS).reverse]
    rw [List.reverse_append]
  · intro c hc
    exact List.mem_takeWhile_imp hc
  · intro c hc
    rw [List.mem_reverse] at hc
    exact List.mem_takeWhile_imp hc

theorem guardMatch_sound (cs : List Char) (n : String) (op : GuardOp) (v : Nat)
    (h : guardMatch cs = some (n, op, v)) :
    ∃ name ws2 ws3 ds, cs = name ++ ws2 ++ opChars op ++ ws3 ++ ds
      ∧ name ≠ [] ∧ (∀ c ∈ name, isWordCharJS c = true)
      ∧ (∀ c ∈ ws2, isSpaceJS c = true) ∧ (∀ c ∈ ws3, isSpaceJS c = true)
      ∧ ds ≠ [] ∧ (∀ c ∈ ds, isDigitChar c = true)
      ∧ n = String.mk name ∧ v = digitsToNat ds := by
  unfold guardMatch at h
  rw [span_eq] at h
  simp only at h
  split at h
  · cases h
  · rename_i hnameE
    split at h
    · cases h
    · rename_i op' r3 hparse
      rw [span_eq] at h
      simp only at h
      split at h
      · cases h
      · rename_i hdsE
        split at h
        · rename_i hrest
          injection h with h1
          injection h1 with hn hrest2
          injection hrest2 with hop hv
          refine ⟨cs.takeWhile isWordCharJS,
            (cs.dropWhile isWordCharJS).takeWhile isSpaceJS,
            r3.takeWhile isSpaceJS,
            (r3.dropWhile isSpaceJS).takeWhile isDigitChar,
            ?_, ?_, ?_, ?_, ?_, ?_, ?_, ?_, ?_⟩
          · subst hop
            conv_lhs => rw [← List.takeWhile_append_dropWhile isWordCharJS cs]
            rw [List.append_assoc, List.append_assoc, List.append_assoc]
            congr 1
            conv_lhs =>
              rw [← List.takeWhile_append_dropWhile isSpaceJS
                (cs.dropWhile isWordCharJS)]
            congr 1
            rw [parseOp_sound _ _ _ hparse]
            congr 1
            conv_lhs => rw [← List.takeWhile_append_dropWhile isSpaceJS r3]
            congr 1
            conv_lhs =>
              rw [← List.takeWhile_append_dropWhile isDigitChar
                (r3.dropWhile isSpaceJS)]
            rw [List.isEmpty_iff] at hrest
            rw [hrest, List.append_nil]
          · intro he
            rw [he] at hnameE
            exact hnameE rfl
          · intro c hc
            exact List.mem_takeWhile_imp hc
          · intro c hc
            exact List.mem_takeWhile_imp hc
          · intro c hc
            exact List.mem_takeWhile_imp hc
          · intro he
            rw [he] at hdsE
            exact hdsE rfl
          · intro c hc
            exact List.mem_takeWhile_imp hc
          · rw [← hn]
          · rw [← hv]
        · cases h

theorem evaluateGuard_build (ws1 name ws2 : List Char) (op : GuardOp)
    (ws3 ds ws4 : List Char) (counters : List (String × Int))
    (h1 : ∀ c ∈ ws1, isSpaceJS c = true) (h2 : ∀ c ∈ ws2, isSpaceJS c = true)
    (h3 : ∀ c ∈ ws3, isSpaceJS c = true) (h4 : ∀ c ∈ ws4, isSpaceJS c = true)
    (hname : name ≠ []) (hnw : ∀ c ∈ name, isWordCharJS c = true)
    (hds : ds ≠ []) (hdd : ∀ c ∈ ds, isDigitChar c = true) :
    evaluateGuard
        (String.mk (ws1 ++ name ++ ws2 ++ opChars op ++ ws3 ++ ds ++ ws4))
        counters
      = evalCmpInt (recGetD counters (String.mk name) 0) op
          (Int.ofNat (digitsToNat ds)) := by
  unfold evaluateGuard
  have hassoc : ws1 ++ name ++ ws2 ++ opChars op ++ ws3 ++ ds ++ ws4
      = ws1 ++ (name ++ (ws2 ++ (opChars op ++ (ws3 ++ ds)))) ++ ws4 := by
    simp [List.append_assoc]
  have hcore : name ++ (ws2 ++ (opChars op ++ (ws3 ++ ds)))
      = name ++ ws2 ++ opChars op ++ ws3 ++ ds := by
    simp [List.append_assoc]
  have hdsr : ds.reverse ≠ [] := by
    cases ds with
    | nil => exact absurd rfl hds
    | cons x t => simp
  have htrim : trimJS (String.mk (ws1 ++ name ++ ws2 ++ opChars op ++ ws3 ++
      ds ++ ws4)).data = name ++ (ws2 ++ (opChars op ++ (ws3 ++ ds))) := by
    show trimJS (ws1 ++ name ++ ws2 ++ opChars op ++ ws3 ++ ds ++ ws4) = _
    rw [hassoc]
    apply trimJS_decomp _ _ _ h1 h4
    · cases name with
      | nil => exact absurd rfl hname
      | cons x t => simp
    · intro c hc
      rw [head?_append_of_ne_nil _ _ hname] at hc
      exact word_not_space c (hnw c (head?_mem name c hc))
    · intro c hc
      simp only [List.reverse_append, List.append_assoc] at hc
      rw [head?_append_of_ne_nil _ _ hdsr] at hc
      have hcm : c ∈ ds := List.mem_reverse.mp (head?_mem ds.reverse c hc)
      exact digit_not_space c (hdd c hcm)
  rw [htrim, hcore,
    guardMatch_build name ws2 op ws3 ds hname hnw h2 h3 hds hdd]

theorem evaluateGuard_negLit (ws1 name ws2 : List Char) (op : GuardOp)
    (ws3 ds ws4 : List Char) (counters : List (String × Int))
    (h1 : ∀ c ∈ ws1, isSpaceJS c = true) (h2 : ∀ c ∈ ws2, isSpaceJS c = true)
    (h3 : ∀ c ∈ ws3, isSpaceJS c = true) (h4 : ∀ c ∈ ws4, isSpaceJS c = true)
    (hname : name ≠ []) (hnw : ∀ c ∈ name, isWordCharJS c = true)
    (hdd : ∀ c ∈ ds, isDigitChar c = true) :
    evaluateGuard
        (String.mk (ws1 ++ name ++ ws2 ++ opChars op ++ ws3 ++ ('-' :: ds) ++ ws4))
        counters
      = false := by
  unfold evaluateGuard
  have hassoc : ws1 ++ name ++ ws2 ++ opChars op ++ ws3 ++ ('-' :: ds) ++ ws4
      = ws1 ++ (name ++ (ws2 ++ (opChars op ++ (ws3 ++ ('-' :: ds))))) ++ ws4 := by
    simp [List.append_assoc]
  have hcore : name ++ (ws2 ++ (opChars op ++ (ws3 ++ ('-' :: ds))))
      = name ++ ws2 ++ opChars op ++ ws3 ++ ('-' :: ds) := by
    simp [List.append_assoc]
  have hdsr : ('-' :: ds).reverse ≠ [] := by simp
  have htrim : trimJS (String.mk (ws1 ++ name ++ ws2 ++ opChars op ++ ws3 ++
      ('-' :: ds) ++ ws4)).data
      = name ++ (ws2 ++ (opChars op ++ (ws3 ++ ('-' :: ds)))) := by
    show trimJS (ws1 ++ name ++ ws2 ++ opChars op ++ ws3 ++ ('-' :: ds) ++ ws4)
      = _
    rw [hassoc]
    apply trimJS_decomp _ _ _ h1 h4
    · cases name with
      | nil => exact absurd rfl hname
      | cons x t => simp
    · intro c hc
      rw [head?_append_of_ne_nil _ _ hname] at hc
      exact word_not_space c (hnw c (head?_mem name c hc))
    · intro c hc
      simp only [List.reverse_append, List.append_assoc] at hc
      rw [head?_append_of_ne_nil _ _ hdsr] at hc
      have hcm : c ∈ '-' :: ds :=
        List.mem_reverse.mp (head?_mem ('-' :: ds).reverse c hc)
      rcases List.mem_cons.mp hcm with rfl | hcm2
      · decide
      · exact digit_not_space c (hdd c hcm2)
  rw [htrim, hcore, guardMatch_neg name ws2 op ws3 ds hname hnw h2 h3 hdd]

/-- Claim C5 (amended): `evaluateGuard` implements the grammar
`^\s*(\w+)\s*(<=|<|>=|>|==|!=)\s*(\d+)\s*$` on the trimmed guard.
Part 1: every string of that shape evaluates to the comparison of the
counter value (missing counter defaults to 0) against the non-negative
literal.  Part 2: a guard whose literal carries a leading minus sign
evaluates to `false`.  Part 3: every guard that evaluates to `true`
decomposes into that shape, i.e. every string outside the grammar
evaluates to `false`. -/
theorem guard_grammar_corrected :
    (∀ (ws1 name ws2 : List Char) (op : GuardOp) (ws3 ds ws4 : List Char)
        (counters : List (String × Int)),
      (∀ c ∈ ws1, isSpaceJS c = true) → (∀ c ∈ ws2, isSpaceJS c = true) →
      (∀ c ∈ ws3, isSpaceJS c = true) → (∀ c ∈ ws4, isSpaceJS c = true) →
      name ≠ [] → (∀ c ∈ name, isWordCharJS c = true) →
      ds ≠ [] → (∀ c ∈ ds, isDigitChar c = true) →
      evaluateGuard
          (String.mk (ws1 ++ name ++ ws2 ++ opChars op ++ ws3 ++ ds ++ ws4))
          counters
        = evalCmpInt (recGetD counters (String.mk name) 0) op
            (Int.ofNat (digitsToNat ds)))
    ∧ (∀ (ws1 name ws2 : List Char) (op : GuardOp) (ws3 ds ws4 : List Char)
        (counters : List (String × Int)),
      (∀ c ∈ ws1, isSpaceJS c = true) → (∀ c ∈ ws2, isSpaceJS c = true) →
      (∀ c ∈ ws3, isSpaceJS c = true) → (∀ c ∈ ws4, isSpaceJS c = true) →
      name ≠ [] → (∀ c ∈ name, isWordCharJS c = true) →
      (∀ c ∈ ds, isDigitChar c = true) →
      evaluateGuard
          (String.mk
            (ws1 ++ name ++ ws2 ++ opChars op ++ ws3 ++ ('-' :: ds) ++ ws4))
          counters
        = false)
    ∧ (∀ (g : String) (counters : List (String × Int)),
      evaluateGuard g counters = true →
      ∃ (ws1 name ws2 : List Char) (op : GuardOp) (ws3 ds ws4 : List Char),
        g.data = ws1 ++ name ++ ws2 ++ opChars op ++ ws3 ++ ds ++ ws4
        ∧ (∀ c ∈ ws1, isSpaceJS c = true) ∧ (∀ c ∈ ws2, isSpaceJS c = true)
        ∧ (∀ c ∈ ws3, isSpaceJS c = true) ∧ (∀ c ∈ ws4, isSpaceJS c = true)
        ∧ name ≠ [] ∧ (∀ c ∈ name, isWordCharJS c = true)
        ∧ ds ≠ [] ∧ (∀ c ∈ ds, isDigitChar c = true)
        ∧ evalCmpInt (recGetD counters (String.mk name) 0) op
            (Int.ofNat (digitsToNat ds)) = true) := by
  refine ⟨?_, ?_, ?_⟩
  · intro ws1 name ws2 op ws3 ds ws4 counters h1 h2 h3 h4 hname hnw hds hdd
    exact evaluateGuard_build ws1 name ws2 op ws3 ds ws4 counters
      h1 h2 h3 h4 hname hnw hds hdd
  · intro ws1 name ws2 op ws3 ds ws4 counters h1 h2 h3 h4 hname hnw hdd
    exact evaluateGuard_negLit ws1 name ws2 op ws3 ds ws4 counters
      h1 h2 h3 h4 hname hnw hdd
  · intro g counters h
    unfold evaluateGuard at h
    split at h
    · cases h
    · rename_i n op v hm
      obtain ⟨name, ws2, ws3, ds, hcs, hname, hnw, h2, h3, hds, hdd, hn, hv⟩ :=
        guardMatch_sound (trimJS g.data) n op v hm
      obtain ⟨ws1, ws4, hl, hws1, hws4⟩ := trim_exists g.data
      refine ⟨ws1, name, ws2, op, ws3, ds, ws4, ?_, hws1, h2, h3, hws4,
        hname, hnw, hds, hdd, ?_⟩
      · rw [hcs] at hl
        rw [hl]
        simp [List.append_assoc]
      · rw [hn, hv] at h
        exact h

theorem guard_grammar_corrected_witness :
    evaluateGuard
        (String.mk ([' '] ++ ['x'] ++ [] ++ opChars GuardOp.ge ++ [' '] ++
          ['4', '2'] ++ [' ']))
        [("x", 50)]
      = evalCmpInt (recGetD [("x", 50)] (String.mk ['x']) 0) GuardOp.ge
          (Int.ofNat (digitsToNat ['4', '2'])) :=
  guard_grammar_corrected.1 [' '] ['x'] [] GuardOp.ge [' '] ['4', '2'] [' ']
    [("x", 50)] (by decide) (by decide) (by decide) (by decide) (by decide)
    (by decide) (by decide) (by decide)
